import Mathlib

/-!
Verification of the geofence-driven session and connectivity controller of the
dogtracker firmware (`src/unnamed/part_001`, with `src/dogtracker.ino` an
earlier revision of the same logic).

The firmware is shallowly embedded as follows.

* `getDistance` is the haversine distance of the source, over `ℝ`
  (the source computes in `double`).
* The global mutable variables of the sketch become the fields of
  `TrackerState`; machine integers (`unsigned long` milliseconds, counters)
  become `ℕ`, `float`/`double` quantities that the control logic compares
  become `ℚ` so that every step of the state machine is executable and
  decidable.  Wrap-around of `millis()` at 2^32 (49.7 days) is outside the
  scope of all claims and is not modelled: cycle times are naturals.
* One iteration of `loop()` that observes an updated fix, followed by at most
  one web-server command handled by `server.handleClient()`, is `loopStep`.
  The blocking connect attempt of `startClientWiFi` is modelled by a boolean
  environment input `connectOk` (did the attempt succeed within its 10 s
  timeout); file creation by `LittleFS.open` is modelled by the input `fsOk`.
  All `millis()` reads of one iteration are modelled by the single cycle time
  `now`; the `delay(1)` at the end of `loop()` makes cycle times strictly
  increase, which is the hypothesis `timesIncreasing` used below.
* The GPX file is modelled by `gpxOpen` (does the handle test `if (gpxFile)`
  succeed) and `gpxLines`, the sequence of records printed to the current
  file, abstracted to the constructors of `GpxLine` (one per `println`d tag
  group of the source).
* The controller consumes the distance signal through the pure function
  `getDistance`; the state machines are proved for an arbitrary distance
  function `gd : ℚ → ℚ → ℚ → ℚ → ℚ` standing for it, so the theorems hold in
  particular for the haversine evaluator.
* The `/setHome` endpoint only overwrites `homeZoneLat`/`homeZoneLon` from a
  valid fix; no claim involves it and it is not part of the modelled command
  alphabet.
-/

namespace DogTracker

/-- Modelled from the source `radians` Arduino macro: degrees to radians. -/
noncomputable def radians (x : ℝ) : ℝ := x * Real.pi / 180

/-- Standard-library `atan2(y, x)` as used by the source (principal value,
case split on the signs of the arguments). -/
noncomputable def atan2 (y x : ℝ) : ℝ :=
  if 0 < x then Real.arctan (y / x)
  else if x < 0 ∧ 0 ≤ y then Real.arctan (y / x) + Real.pi
  else if x < 0 ∧ y < 0 then Real.arctan (y / x) - Real.pi
  else if x = 0 ∧ 0 < y then Real.pi / 2
  else if x = 0 ∧ y < 0 then -(Real.pi / 2)
  else 0

/-- Intermediate quantity `a` of `getDistance` (part_001 lines 281-290):
`sin(dLat/2)^2 + cos(lat1) * cos(lat2) * sin(dLon/2)^2` in radians. -/
noncomputable def haverA (lat1 lon1 lat2 lon2 : ℝ) : ℝ :=
  Real.sin (radians (lat2 - lat1) / 2) * Real.sin (radians (lat2 - lat1) / 2) +
    Real.cos (radians lat1) * Real.cos (radians lat2) *
      Real.sin (radians (lon2 - lon1) / 2) * Real.sin (radians (lon2 - lon1) / 2)

/-- Great-circle distance in km between two points, exactly as computed by
`getDistance` of the source: `R * c` with `R = 6371` and
`c = 2 * atan2(sqrt a, sqrt (1 - a))`. -/
noncomputable def getDistance (lat1 lon1 lat2 lon2 : ℝ) : ℝ :=
  6371 * (2 * atan2 (Real.sqrt (haverA lat1 lon1 lat2 lon2))
      (Real.sqrt (1 - haverA lat1 lon1 lat2 lon2)))

theorem haverA_self (lat lon : ℝ) : haverA lat lon lat lon = 0 := by
  unfold haverA radians
  simp

theorem haverA_symm (lat1 lon1 lat2 lon2 : ℝ) :
    haverA lat2 lon2 lat1 lon1 = haverA lat1 lon1 lat2 lon2 := by
  unfold haverA radians
  have h1 : (lat1 - lat2) * Real.pi / 180 / 2 = -((lat2 - lat1) * Real.pi / 180 / 2) := by
    ring
  have h2 : (lon1 - lon2) * Real.pi / 180 / 2 = -((lon2 - lon1) * Real.pi / 180 / 2) := by
    ring
  rw [h1, h2, Real.sin_neg, Real.sin_neg]
  ring

theorem atan2_zero_one : atan2 0 1 = 0 := by
  unfold atan2
  rw [if_pos one_pos]
  simp

/-! ## State model of the controller loop -/

/-- Records printed to the current GPX file, one constructor per tag group
written by `createNewGpx`, `writeGpxPoint` and the two session-closing sites
(auto stop in `loop`, manual stop in `/toggleTracking`). -/
inductive GpxLine where
  | xmlDecl
  | gpxOpenTag
  | trkOpen
  | trksegOpen
  | trkpt (lat lon ele : ℚ)
  | trksegClose
  | trkClose
  | gpxClose
  deriving Repr, DecidableEq

/-- Observable actions of one loop iteration, used to state the temporal
claims: a station connect attempt (`WiFi.begin` in `startClientWiFi`), an
access-point start (`WiFi.softAP` in `startAccessPoint`), the automatic or
manual session transitions, and the appending of one track point. -/
inductive Event where
  | connectAttempt
  | apStart
  | sessionStart
  | sessionStop
  | pointAppend
  deriving Repr, DecidableEq

/-- Global mutable variables of the sketch (part_001 lines 20-60) that the
claims are about.  LED/ADC/NTP state is omitted: no claim mentions it. -/
structure TrackerState where
  wifiSsid : String
  wifiPassword : String
  wifiConnected : Bool
  inAPMode : Bool
  stationConnectAttempts : ℕ
  stationConnectFailure : Bool
  lastModeSwitchTime : ℕ
  homeZoneLat : ℚ
  homeZoneLon : ℚ
  isTracking : Bool
  hasLeftHome : Bool
  totalDistance : ℚ
  maxSpeed : ℚ
  avgSpeed : ℚ
  elevationGain : ℚ
  pointCount : ℕ
  lastLat : ℚ
  lastLon : ℚ
  lastAlt : ℚ
  trackingStartTime : ℕ
  lastLogTime : ℕ
  autoTracking : Bool
  gpxOpen : Bool
  gpxLines : List GpxLine
  deriving Repr, DecidableEq

/-- Constant `maxStationConnectAttempts = 3` of the source. -/
def maxStationConnectAttempts : ℕ := 3

/-- Constant `modeSwitchInterval = 15000` ms of the source. -/
def modeSwitchInterval : ℕ := 15000

/-- Constant `triggerRadiusKm = 0.1` of the source (`mkRat` keeps every
comparison kernel-computable). -/
def triggerRadiusKm : ℚ := mkRat 1 10

/-- Constant `logInterval = 1000` ms of the source. -/
def logInterval : ℕ := 1000

/-- Decoded GPS data consumed on an `isUpdated` edge of `gps.location`. -/
structure Fix where
  lat : ℚ
  lon : ℚ
  alt : ℚ
  speedKmh : ℚ
  deriving Repr, DecidableEq

/-- Web-server commands that reach the controller state (the remaining
endpoints are read-only or touch only files and the home location). -/
inductive Cmd where
  | toggleTracking
  | toggleAutoTrack
  | saveWifi (ssid pass : String)
  deriving Repr, DecidableEq

/-- Inputs of one `loop()` iteration: the cycle time `now` (the value of
`millis()` during the iteration), the updated fix if any, whether a station
connect attempt would succeed within its timeout, whether `LittleFS` can
create a file, and at most one command served by `server.handleClient()`. -/
structure CycleInput where
  now : ℕ
  fix : Option Fix
  connectOk : Bool
  fsOk : Bool
  cmd : Option Cmd
  deriving Repr, DecidableEq

/-- Header lines written by `createNewGpx` (XML declaration and the three
opening container tags). -/
def gpxHeader : List GpxLine :=
  [GpxLine.xmlDecl, GpxLine.gpxOpenTag, GpxLine.trkOpen, GpxLine.trksegOpen]

/-- Closing tags written when a session's file is closed. -/
def gpxClosingTags : List GpxLine :=
  [GpxLine.trksegClose, GpxLine.trkClose, GpxLine.gpxClose]

/-- Source `startAccessPoint` (part_001 lines 364-372): stamp the switch time,
start the AP, mark connected and AP mode. -/
def startAccessPoint (now : ℕ) (s : TrackerState) : TrackerState :=
  { s with lastModeSwitchTime := now, wifiConnected := true, inAPMode := true }

/-- Source `startClientWiFi` (part_001 lines 332-361): stamp the switch time,
attempt the blocking connect (`connectOk` tells whether it succeeded within
the 10 s timeout); on success reset the failure counters, on failure increment
them and, at `maxStationConnectAttempts`, set the lockout flag, fall back to
the AP and zero the counter. -/
def startClientWiFi (connectOk : Bool) (now : ℕ) (s : TrackerState) :
    TrackerState × List Event :=
  if connectOk then
    ({ s with lastModeSwitchTime := now, wifiConnected := true, inAPMode := false,
              stationConnectAttempts := 0, stationConnectFailure := false },
     [Event.connectAttempt])
  else if s.stationConnectAttempts + 1 ≥ maxStationConnectAttempts then
    ({ startAccessPoint now
        { s with lastModeSwitchTime := now,
                 stationConnectAttempts := s.stationConnectAttempts + 1,
                 stationConnectFailure := true } with
       stationConnectAttempts := 0 },
     [Event.connectAttempt, Event.apStart])
  else
    ({ s with lastModeSwitchTime := now,
              stationConnectAttempts := s.stationConnectAttempts + 1 },
     [Event.connectAttempt])

/-- Source `updateWiFiMode` (part_001 lines 293-329): no-op inside the dwell
interval; with missing credentials force AP mode; at home attempt a station
connect unless already connected-as-station or locked out; away from home
force AP mode. -/
def updateWiFiMode (connectOk : Bool) (now : ℕ) (distanceFromHome : ℚ)
    (s : TrackerState) : TrackerState × List Event :=
  if now - s.lastModeSwitchTime < modeSwitchInterval then (s, [])
  else if s.wifiSsid = "" ∨ s.wifiPassword = "" then
    if s.inAPMode = false then (startAccessPoint now s, [Event.apStart]) else (s, [])
  else if distanceFromHome < triggerRadiusKm then
    if s.inAPMode = true ∧ s.stationConnectFailure = false then
      startClientWiFi connectOk now s
    else if s.wifiConnected = false ∧ s.stationConnectFailure = false then
      startClientWiFi connectOk now s
    else (s, [])
  else
    if s.inAPMode = false then (startAccessPoint now s, [Event.apStart]) else (s, [])

/-- Source `createNewGpx` (part_001 lines 375-400): open the file for the new
session; on failure only log to serial and return (the invalid handle makes
`if (gpxFile)` false); on success write the four header lines and record the
session start time. -/
def createNewGpx (fsOk : Bool) (now : ℕ) (s : TrackerState) : TrackerState :=
  if fsOk = false then { s with gpxOpen := false }
  else
    { s with gpxOpen := true, gpxLines := gpxHeader, trackingStartTime := now }

/-- Source `writeGpxPoint` (part_001 lines 403-421): append one `<trkpt>`
record and flush, provided the handle is valid. -/
def writeGpxPoint (lat lon ele : ℚ) (s : TrackerState) : TrackerState :=
  if s.gpxOpen = true then
    { s with gpxLines := s.gpxLines ++ [GpxLine.trkpt lat lon ele] }
  else s

/-- Closing of the current GPX file, inlined twice in the source (auto stop,
part_001 lines 220-225, and manual stop, lines 802-807): write the three
closing tags and close the handle, guarded by `if (gpxFile)`. -/
def closeGpx (s : TrackerState) : TrackerState :=
  if s.gpxOpen = true then
    { s with gpxLines := s.gpxLines ++ gpxClosingTags, gpxOpen := false }
  else s

/-- First if-statement of the auto-tracking block of `loop()` (part_001 lines
207-217): on the geofence-exit edge set `hasLeftHome` and `isTracking`, open a
new GPX file, seed the last-point snapshot and log time, and set the point
count to one. -/
def autoStartStep (fsOk : Bool) (now : ℕ) (f : Fix) (distanceFromHome : ℚ)
    (s : TrackerState) : TrackerState × List Event :=
  if triggerRadiusKm < distanceFromHome ∧ s.hasLeftHome = false then
    ({ createNewGpx fsOk now { s with hasLeftHome := true, isTracking := true } with
       lastLat := f.lat, lastLon := f.lon, lastAlt := f.alt,
       lastLogTime := now, pointCount := 1 },
     [Event.sessionStart])
  else (s, [])

/-- Second if-statement of the auto-tracking block of `loop()` (part_001 lines
218-230): on returning inside the geofence while tracking, close the GPX file,
clear the flags and reset `totalDistance` and `pointCount`. -/
def autoStopStep (distanceFromHome : ℚ) (s : TrackerState) :
    TrackerState × List Event :=
  if distanceFromHome < triggerRadiusKm ∧ s.isTracking = true then
    ({ closeGpx s with isTracking := false, hasLeftHome := false,
                       totalDistance := 0, pointCount := 0 },
     [Event.sessionStop])
  else (s, [])

/-- Auto-tracking block of `loop()` (part_001 lines 206-231): the two edge
if-statements in sequence, gated by `autoTracking`. -/
def autoTrackPhase (fsOk : Bool) (now : ℕ) (f : Fix) (distanceFromHome : ℚ)
    (s : TrackerState) : TrackerState × List Event :=
  if s.autoTracking = true then
    ((autoStopStep distanceFromHome (autoStartStep fsOk now f distanceFromHome s).1).1,
     (autoStartStep fsOk now f distanceFromHome s).2 ++
       (autoStopStep distanceFromHome (autoStartStep fsOk now f distanceFromHome s).1).2)
  else (s, [])

/-- Point-logging block of `loop()` (part_001 lines 234-259): while tracking,
once strictly more than `logInterval` ms have elapsed since the last logged
point and the incremental distance strictly exceeds 0.005 km, accumulate the
counters, recompute the running average speed, and append the point. -/
def logPointPhase (gd : ℚ → ℚ → ℚ → ℚ → ℚ) (now : ℕ) (f : Fix)
    (s : TrackerState) : TrackerState × List Event :=
  if s.isTracking = true ∧ logInterval < now - s.lastLogTime then
    if mkRat 5 1000 < gd s.lastLat s.lastLon f.lat f.lon then
      ({ writeGpxPoint f.lat f.lon f.alt
           { s with
             totalDistance := s.totalDistance + gd s.lastLat s.lastLon f.lat f.lon,
             maxSpeed := if s.maxSpeed < f.speedKmh then f.speedKmh else s.maxSpeed,
             avgSpeed := (s.totalDistance + gd s.lastLat s.lastLon f.lat f.lon) /
               (((now - s.trackingStartTime : ℕ) : ℚ) / 3600000),
             elevationGain :=
               if s.lastAlt < f.alt then s.elevationGain + (f.alt - s.lastAlt)
               else s.elevationGain } with
         lastLat := f.lat, lastLon := f.lon, lastAlt := f.alt,
         lastLogTime := now, pointCount := s.pointCount + 1 },
       [Event.pointAppend])
    else (s, [])
  else (s, [])

/-- GPS block of `loop()` executed on an updated fix (part_001 lines 196-260):
compute the distance from home, feed it to the connectivity machine, then to
the tracking machine, then log a point if due.  `gd` stands for the
`getDistance` evaluator. -/
def gpsPhase (gd : ℚ → ℚ → ℚ → ℚ → ℚ) (connectOk fsOk : Bool) (now : ℕ)
    (f : Fix) (s : TrackerState) : TrackerState × List Event :=
  ((logPointPhase gd now f
      (autoTrackPhase fsOk now f (gd f.lat f.lon s.homeZoneLat s.homeZoneLon)
        (updateWiFiMode connectOk now (gd f.lat f.lon s.homeZoneLat s.homeZoneLon) s).1).1).1,
   (updateWiFiMode connectOk now (gd f.lat f.lon s.homeZoneLat s.homeZoneLon) s).2 ++
     (autoTrackPhase fsOk now f (gd f.lat f.lon s.homeZoneLat s.homeZoneLon)
       (updateWiFiMode connectOk now (gd f.lat f.lon s.homeZoneLat s.homeZoneLon) s).1).2 ++
     (logPointPhase gd now f
       (autoTrackPhase fsOk now f (gd f.lat f.lon s.homeZoneLat s.homeZoneLon)
         (updateWiFiMode connectOk now (gd f.lat f.lon s.homeZoneLat s.homeZoneLon) s).1).1).2)

/-- Handler of `/toggleTracking` (part_001 lines 799-822): manual stop closes
the file and resets `totalDistance` and `pointCount`; manual start opens a new
file, sets `pointCount := 1` and stamps the session start (note: it does not
refresh `lastLogTime` nor the last-point snapshot). -/
def toggleTrackingCmd (fsOk : Bool) (now : ℕ) (s : TrackerState) :
    TrackerState × List Event :=
  if s.isTracking = true then
    ({ closeGpx s with isTracking := false, hasLeftHome := false,
                       totalDistance := 0, pointCount := 0 },
     [Event.sessionStop])
  else
    ({ createNewGpx fsOk now { s with isTracking := true, hasLeftHome := true } with
       pointCount := 1, trackingStartTime := now },
     [Event.sessionStart])

/-- Handler of `/saveWifi` (part_001 lines 844-862): store the new
credentials, then immediately reconnect as station if both are non-empty,
else fall back to AP mode — with no dwell-interval check. -/
def saveWifiCmd (connectOk : Bool) (now : ℕ) (ssid pass : String)
    (s : TrackerState) : TrackerState × List Event :=
  if 0 < ssid.length ∧ 0 < pass.length then
    startClientWiFi connectOk now { s with wifiSsid := ssid, wifiPassword := pass }
  else
    (startAccessPoint now { s with wifiSsid := ssid, wifiPassword := pass },
     [Event.apStart])

/-- Dispatch of one command served by `server.handleClient()`. -/
def handleCommand (connectOk fsOk : Bool) (now : ℕ) (cmd : Cmd)
    (s : TrackerState) : TrackerState × List Event :=
  match cmd with
  | Cmd.toggleTracking => toggleTrackingCmd fsOk now s
  | Cmd.toggleAutoTrack => ({ s with autoTracking := !s.autoTracking }, [])
  | Cmd.saveWifi ssid pass => saveWifiCmd connectOk now ssid pass s

/-- Service of `server.handleClient()` at the end of one iteration (part_001
lines 262-263): only when `wifiConnected`, at most one pending command. -/
def cmdPhase (connectOk fsOk : Bool) (now : ℕ) (cmd : Option Cmd)
    (s : TrackerState) : TrackerState × List Event :=
  if s.wifiConnected = true then
    match cmd with
    | some c => handleCommand connectOk fsOk now c s
    | none => (s, [])
  else (s, [])

/-- One iteration of `loop()` (part_001 lines 188-274): the GPS block when the
fix was updated, then the command service. -/
def loopStep (gd : ℚ → ℚ → ℚ → ℚ → ℚ) (inp : CycleInput) (s : TrackerState) :
    TrackerState × List Event :=
  match inp.fix with
  | none => cmdPhase inp.connectOk inp.fsOk inp.now inp.cmd s
  | some f =>
      ((cmdPhase inp.connectOk inp.fsOk inp.now inp.cmd
          (gpsPhase gd inp.connectOk inp.fsOk inp.now f s).1).1,
       (gpsPhase gd inp.connectOk inp.fsOk inp.now f s).2 ++
         (cmdPhase inp.connectOk inp.fsOk inp.now inp.cmd
           (gpsPhase gd inp.connectOk inp.fsOk inp.now f s).1).2)

/-- Run of the cooperative loop over a list of cycle inputs. -/
def run (gd : ℚ → ℚ → ℚ → ℚ → ℚ) : TrackerState → List CycleInput → TrackerState
  | s, [] => s
  | s, inp :: rest => run gd (loopStep gd inp s).1 rest

/-- Initial values of the globals (part_001 lines 20-60) with the credentials
and home location as loaded from `Preferences` by `loadConfiguration`. -/
def initState (ssid pass : String) (homeLat homeLon : ℚ) : TrackerState where
  wifiSsid := ssid
  wifiPassword := pass
  wifiConnected := false
  inAPMode := false
  stationConnectAttempts := 0
  stationConnectFailure := false
  lastModeSwitchTime := 0
  homeZoneLat := homeLat
  homeZoneLon := homeLon
  isTracking := false
  hasLeftHome := false
  totalDistance := 0
  maxSpeed := 0
  avgSpeed := 0
  elevationGain := 0
  pointCount := 0
  lastLat := 0
  lastLon := 0
  lastAlt := 0
  trackingStartTime := 0
  lastLogTime := 0
  autoTracking := true
  gpxOpen := false
  gpxLines := []

/-! ## Trace-level definitions -/

/-- Cycle times are strictly increasing from a given start time: guaranteed
on the device by the `delay(1)` at the end of every `loop()` iteration. -/
def timesIncreasing : ℕ → List CycleInput → Prop
  | _, [] => True
  | t, inp :: rest => t < inp.now ∧ timesIncreasing inp.now rest

/-- Number of session starts (automatic or manual) fired along a run. -/
def countSessionStarts (gd : ℚ → ℚ → ℚ → ℚ → ℚ) :
    TrackerState → List CycleInput → ℕ
  | _, [] => 0
  | s, inp :: rest =>
      (loopStep gd inp s).2.count Event.sessionStart +
        countSessionStarts gd (loopStep gd inp s).1 rest

/-- The dwell invariant of the claim: a cycle performing a role-affecting
action (a station connect attempt or an AP start) does so only when at least
`modeSwitchInterval` ms have elapsed since the last role switch recorded
before the cycle. -/
def dwellRespectedB (gd : ℚ → ℚ → ℚ → ℚ → ℚ) :
    TrackerState → List CycleInput → Bool
  | _, [] => true
  | s, inp :: rest =>
      (!(decide (Event.connectAttempt ∈ (loopStep gd inp s).2) ||
          decide (Event.apStart ∈ (loopStep gd inp s).2)) ||
        decide (modeSwitchInterval ≤ inp.now - s.lastModeSwitchTime)) &&
      dwellRespectedB gd (loopStep gd inp s).1 rest

/-- If the cycle appends a point, the elapsed time `now - trackingStartTime`
entering the average-speed division is strictly positive (the point-logging
block preserves `trackingStartTime`, so the final state's value is the one
that was divided by). -/
def divisorPosAt (gd : ℚ → ℚ → ℚ → ℚ → ℚ) (inp : CycleInput)
    (s : TrackerState) : Prop :=
  ∀ f, inp.fix = some f →
    Event.pointAppend ∈ (gpsPhase gd inp.connectOk inp.fsOk inp.now f s).2 →
    0 < inp.now - (gpsPhase gd inp.connectOk inp.fsOk inp.now f s).1.trackingStartTime ∧
      ((inp.now - (gpsPhase gd inp.connectOk inp.fsOk inp.now f s).1.trackingStartTime : ℕ) : ℚ) / 3600000 ≠ 0

/-- Every cycle of the run satisfies `divisorPosAt`. -/
def DivisorsPos (gd : ℚ → ℚ → ℚ → ℚ → ℚ) :
    TrackerState → List CycleInput → Prop
  | _, [] => True
  | s, inp :: rest => divisorPosAt gd inp s ∧ DivisorsPos gd (loopStep gd inp s).1 rest

/-- No `/saveWifi` credential update among the cycle inputs. -/
def noCredUpdate (inputs : List CycleInput) : Prop :=
  ∀ inp ∈ inputs, ∀ ssid pass, inp.cmd ≠ some (Cmd.saveWifi ssid pass)

/-- Every cycle's file creations succeed. -/
def allFsOk (inputs : List CycleInput) : Prop :=
  ∀ inp ∈ inputs, inp.fsOk = true

/-! ## Concrete states and inputs for witnesses and counterexamples -/

/-- Distance signal that always reports 1 km (outside the 0.1 km geofence). -/
def gdFar (_ _ _ _ : ℚ) : ℚ := 1

/-- Distance signal that always reports 0 km (inside the geofence). -/
def gdHome (_ _ _ _ : ℚ) : ℚ := 0

/-- Distance signal that always reports 0.006 km (6 m: above the 5 m point
threshold, inside the 0.1 km geofence). -/
def gdSix (_ _ _ _ : ℚ) : ℚ := mkRat 6 1000

/-- A fix used by the concrete runs. -/
def fix0 : Fix := { lat := 1, lon := 1, alt := 10, speedKmh := 4 }

/-! ## Helper lemmas: field preservation and event inventories -/

theorem updateWiFiMode_isTracking (ok : Bool) (now : ℕ) (d : ℚ) (s : TrackerState) :
    (updateWiFiMode ok now d s).1.isTracking = s.isTracking := by
  unfold updateWiFiMode startClientWiFi startAccessPoint
  repeat' split
  all_goals rfl

theorem updateWiFiMode_hasLeftHome (ok : Bool) (now : ℕ) (d : ℚ) (s : TrackerState) :
    (updateWiFiMode ok now d s).1.hasLeftHome = s.hasLeftHome := by
  unfold updateWiFiMode startClientWiFi startAccessPoint
  repeat' split
  all_goals rfl

theorem updateWiFiMode_autoTracking (ok : Bool) (now : ℕ) (d : ℚ) (s : TrackerState) :
    (updateWiFiMode ok now d s).1.autoTracking = s.autoTracking := by
  unfold updateWiFiMode startClientWiFi startAccessPoint
  repeat' split
  all_goals rfl

theorem updateWiFiMode_totalDistance (ok : Bool) (now : ℕ) (d : ℚ) (s : TrackerState) :
    (updateWiFiMode ok now d s).1.totalDistance = s.totalDistance := by
  unfold updateWiFiMode startClientWiFi startAccessPoint
  repeat' split
  all_goals rfl

theorem updateWiFiMode_maxSpeed (ok : Bool) (now : ℕ) (d : ℚ) (s : TrackerState) :
    (updateWiFiMode ok now d s).1.maxSpeed = s.maxSpeed := by
  unfold updateWiFiMode startClientWiFi startAccessPoint
  repeat' split
  all_goals rfl

theorem updateWiFiMode_avgSpeed (ok : Bool) (now : ℕ) (d : ℚ) (s : TrackerState) :
    (updateWiFiMode ok now d s).1.avgSpeed = s.avgSpeed := by
  unfold updateWiFiMode startClientWiFi startAccessPoint
  repeat' split
  all_goals rfl

theorem updateWiFiMode_elevationGain (ok : Bool) (now : ℕ) (d : ℚ) (s : TrackerState) :
    (updateWiFiMode ok now d s).1.elevationGain = s.elevationGain := by
  unfold updateWiFiMode startClientWiFi startAccessPoint
  repeat' split
  all_goals rfl

theorem updateWiFiMode_pointCount (ok : Bool) (now : ℕ) (d : ℚ) (s : TrackerState) :
    (updateWiFiMode ok now d s).1.pointCount = s.pointCount := by
  unfold updateWiFiMode startClientWiFi startAccessPoint
  repeat' split
  all_goals rfl

theorem updateWiFiMode_lastLat (ok : Bool) (now : ℕ) (d : ℚ) (s : TrackerState) :
    (updateWiFiMode ok now d s).1.lastLat = s.lastLat := by
  unfold updateWiFiMode startClientWiFi startAccessPoint
  repeat' split
  all_goals rfl

theorem updateWiFiMode_lastLon (ok : Bool) (now : ℕ) (d : ℚ) (s : TrackerState) :
    (updateWiFiMode ok now d s).1.lastLon = s.lastLon := by
  unfold updateWiFiMode startClientWiFi startAccessPoint
  repeat' split
  all_goals rfl

theorem updateWiFiMode_lastAlt (ok : Bool) (now : ℕ) (d : ℚ) (s : TrackerState) :
    (updateWiFiMode ok now d s).1.lastAlt = s.lastAlt := by
  unfold updateWiFiMode startClientWiFi startAccessPoint
  repeat' split
  all_goals rfl

theorem updateWiFiMode_trackingStartTime (ok : Bool) (now : ℕ) (d : ℚ) (s : TrackerState) :
    (updateWiFiMode ok now d s).1.trackingStartTime = s.trackingStartTime := by
  unfold updateWiFiMode startClientWiFi startAccessPoint
  repeat' split
  all_goals rfl

theorem updateWiFiMode_lastLogTime (ok : Bool) (now : ℕ) (d : ℚ) (s : TrackerState) :
    (updateWiFiMode ok now d s).1.lastLogTime = s.lastLogTime := by
  unfold updateWiFiMode startClientWiFi startAccessPoint
  repeat' split
  all_goals rfl

theorem updateWiFiMode_gpxOpen (ok : Bool) (now : ℕ) (d : ℚ) (s : TrackerState) :
    (updateWiFiMode ok now d s).1.gpxOpen = s.gpxOpen := by
  unfold updateWiFiMode startClientWiFi startAccessPoint
  repeat' split
  all_goals rfl

theorem updateWiFiMode_gpxLines (ok : Bool) (now : ℕ) (d : ℚ) (s : TrackerState) :
    (updateWiFiMode ok now d s).1.gpxLines = s.gpxLines := by
  unfold updateWiFiMode startClientWiFi startAccessPoint
  repeat' split
  all_goals rfl

theorem updateWiFiMode_homeZoneLat (ok : Bool) (now : ℕ) (d : ℚ) (s : TrackerState) :
    (updateWiFiMode ok now d s).1.homeZoneLat = s.homeZoneLat := by
  unfold updateWiFiMode startClientWiFi startAccessPoint
  repeat' split
  all_goals rfl

theorem updateWiFiMode_homeZoneLon (ok : Bool) (now : ℕ) (d : ℚ) (s : TrackerState) :
    (updateWiFiMode ok now d s).1.homeZoneLon = s.homeZoneLon := by
  unfold updateWiFiMode startClientWiFi startAccessPoint
  repeat' split
  all_goals rfl

theorem updateWiFiMode_events_wifi (ok : Bool) (now : ℕ) (d : ℚ) (s : TrackerState) :
    ∀ e ∈ (updateWiFiMode ok now d s).2,
      e = Event.connectAttempt ∨ e = Event.apStart := by
  unfold updateWiFiMode startClientWiFi startAccessPoint
  intro e he
  repeat' split at he
  all_goals simp_all

theorem updateWiFiMode_events_dwell (ok : Bool) (now : ℕ) (d : ℚ) (s : TrackerState)
    (h : (updateWiFiMode ok now d s).2 ≠ []) :
    modeSwitchInterval ≤ now - s.lastModeSwitchTime := by
  unfold updateWiFiMode startClientWiFi startAccessPoint modeSwitchInterval at *
  repeat' split at h
  all_goals first
    | exact absurd rfl h
    | omega

theorem autoStartStep_events (fsOk : Bool) (now : ℕ) (f : Fix) (d : ℚ)
    (s : TrackerState) :
    ∀ e ∈ (autoStartStep fsOk now f d s).2, e = Event.sessionStart := by
  unfold autoStartStep
  intro e he
  repeat' split at he
  all_goals simp_all

theorem autoStopStep_events (d : ℚ) (s : TrackerState) :
    ∀ e ∈ (autoStopStep d s).2, e = Event.sessionStop := by
  unfold autoStopStep
  intro e he
  repeat' split at he
  all_goals simp_all

theorem autoTrackPhase_events (fsOk : Bool) (now : ℕ) (f : Fix) (d : ℚ)
    (s : TrackerState) :
    ∀ e ∈ (autoTrackPhase fsOk now f d s).2,
      e = Event.sessionStart ∨ e = Event.sessionStop := by
  unfold autoTrackPhase
  intro e he
  split at he
  · rcases List.mem_append.mp he with h | h
    · exact Or.inl (autoStartStep_events fsOk now f d s e h)
    · exact Or.inr (autoStopStep_events d _ e h)
  · simp at he

theorem logPointPhase_events (gd : ℚ → ℚ → ℚ → ℚ → ℚ) (now : ℕ) (f : Fix)
    (s : TrackerState) :
    ∀ e ∈ (logPointPhase gd now f s).2, e = Event.pointAppend := by
  unfold logPointPhase
  intro e he
  repeat' split at he
  all_goals simp_all

theorem toggleTrackingCmd_events (fsOk : Bool) (now : ℕ) (s : TrackerState) :
    ∀ e ∈ (toggleTrackingCmd fsOk now s).2,
      e = Event.sessionStart ∨ e = Event.sessionStop := by
  unfold toggleTrackingCmd
  intro e he
  repeat' split at he
  all_goals simp_all

theorem updateWiFiMode_locked_events (ok : Bool) (now : ℕ) (d : ℚ)
    (s : TrackerState) (h : s.stationConnectFailure = true) :
    (updateWiFiMode ok now d s).2 = [] ∨
      (updateWiFiMode ok now d s).2 = [Event.apStart] := by
  unfold updateWiFiMode startClientWiFi startAccessPoint
  repeat' split
  all_goals simp_all

/-! ## Claim C9 -/

/-- C9: for all coordinate pairs, the distance function yields zero when both
points are identical and is symmetric in its two points, as computed by the
spherical haversine formula with Earth radius 6371 km (`getDistance`). -/
theorem c9_thm (latA lonA latB lonB : ℝ) :
    getDistance latA lonA latA lonA = 0 ∧
      getDistance latA lonA latB lonB = getDistance latB lonB latA lonA := by
  constructor
  · unfold getDistance
    rw [haverA_self]
    simp [atan2_zero_one, Real.sqrt_zero, Real.sqrt_one]
  · unfold getDistance
    rw [haverA_symm]

/-! ## Claim C4 -/

/-- C4: each failed (timed-out) client connect attempt increments the
consecutive-failure counter; when the incremented counter reaches
`maxStationConnectAttempts = 3`, the lockout flag is set, AP (standalone) mode
is forced and the counter is reset to zero; and while the lockout flag is set,
the periodic connectivity evaluation `updateWiFiMode` performs no client
connect attempt (at any distance, in particular on every at-home cycle). -/
theorem c4_thm :
    (∀ (now : ℕ) (s : TrackerState),
        s.stationConnectAttempts + 1 ≥ maxStationConnectAttempts →
          (startClientWiFi false now s).1.stationConnectFailure = true ∧
            (startClientWiFi false now s).1.inAPMode = true ∧
            (startClientWiFi false now s).1.stationConnectAttempts = 0) ∧
    (∀ (now : ℕ) (s : TrackerState),
        s.stationConnectAttempts + 1 < maxStationConnectAttempts →
          (startClientWiFi false now s).1.stationConnectAttempts =
              s.stationConnectAttempts + 1 ∧
            (startClientWiFi false now s).1.stationConnectFailure =
              s.stationConnectFailure) ∧
    (∀ (ok : Bool) (now : ℕ) (d : ℚ) (s : TrackerState),
        s.stationConnectFailure = true →
          Event.connectAttempt ∉ (updateWiFiMode ok now d s).2) := by
  refine ⟨fun now s h => ?_, fun now s h => ?_, fun ok now d s h => ?_⟩
  · unfold startClientWiFi startAccessPoint
    rw [if_neg (by simp), if_pos h]
    exact ⟨rfl, rfl, rfl⟩
  · unfold startClientWiFi startAccessPoint
    rw [if_neg (by simp), if_neg (by omega)]
    exact ⟨rfl, rfl⟩
  · rcases updateWiFiMode_locked_events ok now d s h with h' | h' <;> simp [h']

/-- A state two failed attempts deep, about to fail its third connect. -/
def s3fail : TrackerState :=
  { initState "myssid" "mypass" 0 0 with stationConnectAttempts := 2 }

/-- A locked-out state (three connect attempts already timed out). -/
def sLock : TrackerState :=
  { initState "myssid" "mypass" 0 0 with stationConnectFailure := true,
                                         inAPMode := true, wifiConnected := true }

/-- Witness for C4, at a concrete third failing attempt and a concrete
locked-out at-home cycle. -/
theorem c4_witness :
    ((startClientWiFi false 40000 s3fail).1.stationConnectFailure = true ∧
      (startClientWiFi false 40000 s3fail).1.inAPMode = true ∧
      (startClientWiFi false 40000 s3fail).1.stationConnectAttempts = 0) ∧
    ((startClientWiFi false 40000 (initState "myssid" "mypass" 0 0)).1.stationConnectAttempts = 1 ∧
      (startClientWiFi false 40000 (initState "myssid" "mypass" 0 0)).1.stationConnectFailure =
        (initState "myssid" "mypass" 0 0).stationConnectFailure) ∧
    Event.connectAttempt ∉ (updateWiFiMode true 40000 0 sLock).2 :=
  ⟨c4_thm.1 40000 s3fail (by decide),
   c4_thm.2.1 40000 (initState "myssid" "mypass" 0 0) (by decide),
   c4_thm.2.2 true 40000 0 sLock rfl⟩

/-! ## Per-phase reduction lemmas -/

theorem cmdPhase_none (ok fs : Bool) (now : ℕ) (s : TrackerState) :
    cmdPhase ok fs now none s = (s, []) := by
  unfold cmdPhase
  split <;> rfl

theorem logPointPhase_not_tracking (gd : ℚ → ℚ → ℚ → ℚ → ℚ) (now : ℕ) (f : Fix)
    (s : TrackerState) (h : s.isTracking = false) :
    logPointPhase gd now f s = (s, []) := by
  unfold logPointPhase
  rw [if_neg (by simp [h])]

theorem closeGpx_open (s : TrackerState) (h : s.gpxOpen = true) :
    closeGpx s =
      { s with gpxLines := s.gpxLines ++ gpxClosingTags, gpxOpen := false } := by
  unfold closeGpx
  rw [if_pos h]

theorem autoStartStep_skip (fsOk : Bool) (now : ℕ) (f : Fix) (d : ℚ)
    (s : TrackerState) (h : ¬(triggerRadiusKm < d ∧ s.hasLeftHome = false)) :
    autoStartStep fsOk now f d s = (s, []) := by
  unfold autoStartStep
  rw [if_neg h]

theorem autoStopStep_fire (d : ℚ) (s : TrackerState)
    (h1 : d < triggerRadiusKm) (h2 : s.isTracking = true) :
    autoStopStep d s =
      ({ closeGpx s with isTracking := false, hasLeftHome := false,
                         totalDistance := 0, pointCount := 0 },
       [Event.sessionStop]) := by
  unfold autoStopStep
  rw [if_pos ⟨h1, h2⟩]

theorem autoStopStep_skip (d : ℚ) (s : TrackerState)
    (h : ¬(d < triggerRadiusKm ∧ s.isTracking = true)) :
    autoStopStep d s = (s, []) := by
  unfold autoStopStep
  rw [if_neg h]

theorem autoTrackPhase_on (fsOk : Bool) (now : ℕ) (f : Fix) (d : ℚ)
    (s : TrackerState) (h : s.autoTracking = true) :
    autoTrackPhase fsOk now f d s =
      ((autoStopStep d (autoStartStep fsOk now f d s).1).1,
       (autoStartStep fsOk now f d s).2 ++
         (autoStopStep d (autoStartStep fsOk now f d s).1).2) := by
  unfold autoTrackPhase
  rw [if_pos h]

/-! ## Claim C7 -/

/-- C7: in a Recording state with `autoTracking` on and an open track file, a
cycle whose valid fix lies strictly inside the geofence radius performs the
automatic Recording-to-Idle transition: tracking stops, the file receives its
three terminating tags and is closed, `hasLeftHome` is cleared and both
`pointCount` and `totalDistance` are reset to zero; a `sessionStop` event is
emitted. -/
theorem c7_thm (gd : ℚ → ℚ → ℚ → ℚ → ℚ) (s : TrackerState) (f : Fix)
    (now : ℕ) (ok fs : Bool)
    (hTrack : s.isTracking = true) (hAuto : s.autoTracking = true)
    (hOpen : s.gpxOpen = true)
    (hHome : gd f.lat f.lon s.homeZoneLat s.homeZoneLon < triggerRadiusKm) :
    (loopStep gd ⟨now, some f, ok, fs, none⟩ s).1.isTracking = false ∧
    (loopStep gd ⟨now, some f, ok, fs, none⟩ s).1.hasLeftHome = false ∧
    (loopStep gd ⟨now, some f, ok, fs, none⟩ s).1.totalDistance = 0 ∧
    (loopStep gd ⟨now, some f, ok, fs, none⟩ s).1.pointCount = 0 ∧
    (loopStep gd ⟨now, some f, ok, fs, none⟩ s).1.gpxOpen = false ∧
    (loopStep gd ⟨now, some f, ok, fs, none⟩ s).1.gpxLines =
      s.gpxLines ++ gpxClosingTags ∧
    Event.sessionStop ∈ (loopStep gd ⟨now, some f, ok, fs, none⟩ s).2 := by
  have hstep : loopStep gd ⟨now, some f, ok, fs, none⟩ s =
      ((cmdPhase ok fs now none (gpsPhase gd ok fs now f s).1).1,
       (gpsPhase gd ok fs now f s).2 ++
         (cmdPhase ok fs now none (gpsPhase gd ok fs now f s).1).2) := rfl
  set d := gd f.lat f.lon s.homeZoneLat s.homeZoneLon with hd
  set W := (updateWiFiMode ok now d s).1 with hWdef
  have hWtrack : W.isTracking = true := by
    rw [hWdef, updateWiFiMode_isTracking]; exact hTrack
  have hWauto : W.autoTracking = true := by
    rw [hWdef, updateWiFiMode_autoTracking]; exact hAuto
  have hWopen : W.gpxOpen = true := by
    rw [hWdef, updateWiFiMode_gpxOpen]; exact hOpen
  have hWleft : W.hasLeftHome = s.hasLeftHome := by
    rw [hWdef, updateWiFiMode_hasLeftHome]
  have hWlines : W.gpxLines = s.gpxLines := by
    rw [hWdef, updateWiFiMode_gpxLines]
  have hstart : autoStartStep fs now f d W = (W, []) := by
    refine autoStartStep_skip fs now f d W ?_
    rintro ⟨h1, -⟩
    exact absurd h1 (lt_asymm hHome)
  have hstop : autoStopStep d W =
      ({ closeGpx W with isTracking := false, hasLeftHome := false,
                         totalDistance := 0, pointCount := 0 },
       [Event.sessionStop]) := autoStopStep_fire d W hHome hWtrack
  have hauto : autoTrackPhase fs now f d W =
      ({ closeGpx W with isTracking := false, hasLeftHome := false,
                         totalDistance := 0, pointCount := 0 },
       [Event.sessionStop]) := by
    rw [autoTrackPhase_on fs now f d W hWauto, hstart]
    simp only [hstop, List.nil_append]
  have hgps : gpsPhase gd ok fs now f s =
      ((logPointPhase gd now f (autoTrackPhase fs now f d W).1).1,
       (updateWiFiMode ok now d s).2 ++ (autoTrackPhase fs now f d W).2 ++
         (logPointPhase gd now f (autoTrackPhase fs now f d W).1).2) := rfl
  have hlog : logPointPhase gd now f (autoTrackPhase fs now f d W).1 =
      ((autoTrackPhase fs now f d W).1, []) := by
    refine logPointPhase_not_tracking gd now f _ ?_
    rw [hauto]
  rw [hstep, hgps, hlog, cmdPhase_none]
  simp [hauto, closeGpx_open W hWopen, hWlines]

/-- A concrete Recording state away from home with an open file. -/
def sRec : TrackerState :=
  { initState "" "" 0 0 with
    isTracking := true, hasLeftHome := true, gpxOpen := true,
    gpxLines := gpxHeader, totalDistance := 2, pointCount := 3,
    maxSpeed := 9, trackingStartTime := 1000, lastLogTime := 1000 }

/-- Witness for C7: the concrete state `sRec` returning home (constant
distance signal 0 km) at `now = 2000`. -/
theorem c7_witness :
    (loopStep gdHome ⟨2000, some fix0, false, true, none⟩ sRec).1.isTracking = false ∧
    (loopStep gdHome ⟨2000, some fix0, false, true, none⟩ sRec).1.hasLeftHome = false ∧
    (loopStep gdHome ⟨2000, some fix0, false, true, none⟩ sRec).1.totalDistance = 0 ∧
    (loopStep gdHome ⟨2000, some fix0, false, true, none⟩ sRec).1.pointCount = 0 ∧
    (loopStep gdHome ⟨2000, some fix0, false, true, none⟩ sRec).1.gpxOpen = false ∧
    (loopStep gdHome ⟨2000, some fix0, false, true, none⟩ sRec).1.gpxLines =
      sRec.gpxLines ++ gpxClosingTags ∧
    Event.sessionStop ∈ (loopStep gdHome ⟨2000, some fix0, false, true, none⟩ sRec).2 :=
  c7_thm gdHome sRec fix0 2000 false true rfl rfl rfl (by decide)

theorem createNewGpx_ok (now : ℕ) (s : TrackerState) :
    createNewGpx true now s =
      { s with gpxOpen := true, gpxLines := gpxHeader, trackingStartTime := now } := by
  unfold createNewGpx
  simp

theorem autoStartStep_fire (fsOk : Bool) (now : ℕ) (f : Fix) (d : ℚ)
    (s : TrackerState) (h1 : triggerRadiusKm < d) (h2 : s.hasLeftHome = false) :
    autoStartStep fsOk now f d s =
      ({ createNewGpx fsOk now { s with hasLeftHome := true, isTracking := true } with
         lastLat := f.lat, lastLon := f.lon, lastAlt := f.alt,
         lastLogTime := now, pointCount := 1 },
       [Event.sessionStart]) := by
  unfold autoStartStep
  rw [if_pos ⟨h1, h2⟩]

theorem logPointPhase_skip (gd : ℚ → ℚ → ℚ → ℚ → ℚ) (now : ℕ) (f : Fix)
    (s : TrackerState)
    (h : ¬(s.isTracking = true ∧ logInterval < now - s.lastLogTime)) :
    logPointPhase gd now f s = (s, []) := by
  unfold logPointPhase
  rw [if_neg h]

/-! ## Claim C1 -/

/-- An Idle state whose speed and elevation counters still hold the figures
of an earlier session (reachable: the stop transitions reset only
`totalDistance` and `pointCount`). -/
def sIdleMax : TrackerState :=
  { initState "" "" 0 0 with maxSpeed := 7, avgSpeed := 3, elevationGain := 12 }

/-- Counterexample to C1 as stated: on the automatic Idle-to-Recording
transition (fired here: `isTracking` becomes true and `sessionStart` is
emitted) the session counters are NOT all reset — max speed, average speed
and elevation gain keep their previous values 7, 3 and 12, and the point
count is set to 1, not 0. -/
theorem c1_counterexample :
    (loopStep gdFar ⟨500, some fix0, false, true, none⟩ sIdleMax).1.isTracking = true ∧
    Event.sessionStart ∈ (loopStep gdFar ⟨500, some fix0, false, true, none⟩ sIdleMax).2 ∧
    sIdleMax.maxSpeed = 7 ∧
    (loopStep gdFar ⟨500, some fix0, false, true, none⟩ sIdleMax).1.maxSpeed = 7 ∧
    (loopStep gdFar ⟨500, some fix0, false, true, none⟩ sIdleMax).1.avgSpeed = 3 ∧
    (loopStep gdFar ⟨500, some fix0, false, true, none⟩ sIdleMax).1.elevationGain = 12 ∧
    (loopStep gdFar ⟨500, some fix0, false, true, none⟩ sIdleMax).1.pointCount = 1 := by
  decide

/-- C1 amended: when the automatic Idle-to-Recording transition fires on a
cycle whose file creation succeeds, it sets `hasLeftHome`, opens a new track
file (header written, session-start time recorded), seeds the last-point
snapshot and the log time with the current fix and cycle time, and sets the
point count to 1; `totalDistance`, `maxSpeed`, `avgSpeed` and `elevationGain`
are left unchanged (not reset) by the transition. -/
theorem c1_amended_thm (gd : ℚ → ℚ → ℚ → ℚ → ℚ) (s : TrackerState) (f : Fix)
    (now : ℕ) (ok : Bool)
    (hAuto : s.autoTracking = true) (hLeft : s.hasLeftHome = false)
    (hFar : triggerRadiusKm < gd f.lat f.lon s.homeZoneLat s.homeZoneLon) :
    (loopStep gd ⟨now, some f, ok, true, none⟩ s).1.isTracking = true ∧
    (loopStep gd ⟨now, some f, ok, true, none⟩ s).1.hasLeftHome = true ∧
    (loopStep gd ⟨now, some f, ok, true, none⟩ s).1.gpxOpen = true ∧
    (loopStep gd ⟨now, some f, ok, true, none⟩ s).1.gpxLines = gpxHeader ∧
    (loopStep gd ⟨now, some f, ok, true, none⟩ s).1.trackingStartTime = now ∧
    (loopStep gd ⟨now, some f, ok, true, none⟩ s).1.lastLogTime = now ∧
    (loopStep gd ⟨now, some f, ok, true, none⟩ s).1.pointCount = 1 ∧
    (loopStep gd ⟨now, some f, ok, true, none⟩ s).1.lastLat = f.lat ∧
    (loopStep gd ⟨now, some f, ok, true, none⟩ s).1.lastLon = f.lon ∧
    (loopStep gd ⟨now, some f, ok, true, none⟩ s).1.lastAlt = f.alt ∧
    (loopStep gd ⟨now, some f, ok, true, none⟩ s).1.totalDistance = s.totalDistance ∧
    (loopStep gd ⟨now, some f, ok, true, none⟩ s).1.maxSpeed = s.maxSpeed ∧
    (loopStep gd ⟨now, some f, ok, true, none⟩ s).1.avgSpeed = s.avgSpeed ∧
    (loopStep gd ⟨now, some f, ok, true, none⟩ s).1.elevationGain = s.elevationGain ∧
    Event.sessionStart ∈ (loopStep gd ⟨now, some f, ok, true, none⟩ s).2 := by
  have hstep : loopStep gd ⟨now, some f, ok, true, none⟩ s =
      ((cmdPhase ok true now none (gpsPhase gd ok true now f s).1).1,
       (gpsPhase gd ok true now f s).2 ++
         (cmdPhase ok true now none (gpsPhase gd ok true now f s).1).2) := rfl
  set d := gd f.lat f.lon s.homeZoneLat s.homeZoneLon with hd
  set W := (updateWiFiMode ok now d s).1 with hWdef
  have hWauto : W.autoTracking = true := by
    rw [hWdef, updateWiFiMode_autoTracking]; exact hAuto
  have hWleft : W.hasLeftHome = false := by
    rw [hWdef, updateWiFiMode_hasLeftHome]; exact hLeft
  have hWtd : W.totalDistance = s.totalDistance := by
    rw [hWdef, updateWiFiMode_totalDistance]
  have hWms : W.maxSpeed = s.maxSpeed := by
    rw [hWdef, updateWiFiMode_maxSpeed]
  have hWas : W.avgSpeed = s.avgSpeed := by
    rw [hWdef, updateWiFiMode_avgSpeed]
  have hWeg : W.elevationGain = s.elevationGain := by
    rw [hWdef, updateWiFiMode_elevationGain]
  have hstart : autoStartStep true now f d W =
      ({ W with hasLeftHome := true, isTracking := true, gpxOpen := true,
                gpxLines := gpxHeader, trackingStartTime := now,
                lastLat := f.lat, lastLon := f.lon, lastAlt := f.alt,
                lastLogTime := now, pointCount := 1 },
       [Event.sessionStart]) := by
    rw [autoStartStep_fire true now f d W hFar hWleft, createNewGpx_ok]
  have hstop : autoStopStep d (autoStartStep true now f d W).1 =
      ((autoStartStep true now f d W).1, []) := by
    refine autoStopStep_skip d _ ?_
    rintro ⟨h1, -⟩
    exact absurd h1 (lt_asymm hFar)
  have hlog : logPointPhase gd now f (autoStartStep true now f d W).1 =
      ((autoStartStep true now f d W).1, []) := by
    refine logPointPhase_skip gd now f _ ?_
    rw [hstart]
    rintro ⟨-, h2⟩
    simp [logInterval] at h2
  rw [hstart] at hlog
  simp only [] at hlog
  have hauto : autoTrackPhase true now f d W =
      ((autoStartStep true now f d W).1, [Event.sessionStart]) := by
    rw [autoTrackPhase_on true now f d W hWauto, hstop]
    rw [hstart]
    rfl
  have hgps : gpsPhase gd ok true now f s =
      ((logPointPhase gd now f (autoTrackPhase true now f d W).1).1,
       (updateWiFiMode ok now d s).2 ++ (autoTrackPhase true now f d W).2 ++
         (logPointPhase gd now f (autoTrackPhase true now f d W).1).2) := rfl
  rw [hstep, hgps, hauto]
  simp only [cmdPhase_none, hstart, hlog]
  simp [hWtd, hWms, hWas, hWeg]

/-- Witness for C1 (amended), at the concrete state `sIdleMax` leaving home
at `now = 500`. -/
theorem c1_amended_witness :
    (loopStep gdFar ⟨500, some fix0, false, true, none⟩ sIdleMax).1.isTracking = true ∧
    (loopStep gdFar ⟨500, some fix0, false, true, none⟩ sIdleMax).1.hasLeftHome = true ∧
    (loopStep gdFar ⟨500, some fix0, false, true, none⟩ sIdleMax).1.gpxOpen = true ∧
    (loopStep gdFar ⟨500, some fix0, false, true, none⟩ sIdleMax).1.gpxLines = gpxHeader ∧
    (loopStep gdFar ⟨500, some fix0, false, true, none⟩ sIdleMax).1.trackingStartTime = 500 ∧
    (loopStep gdFar ⟨500, some fix0, false, true, none⟩ sIdleMax).1.lastLogTime = 500 ∧
    (loopStep gdFar ⟨500, some fix0, false, true, none⟩ sIdleMax).1.pointCount = 1 ∧
    (loopStep gdFar ⟨500, some fix0, false, true, none⟩ sIdleMax).1.lastLat = fix0.lat ∧
    (loopStep gdFar ⟨500, some fix0, false, true, none⟩ sIdleMax).1.lastLon = fix0.lon ∧
    (loopStep gdFar ⟨500, some fix0, false, true, none⟩ sIdleMax).1.lastAlt = fix0.alt ∧
    (loopStep gdFar ⟨500, some fix0, false, true, none⟩ sIdleMax).1.totalDistance = sIdleMax.totalDistance ∧
    (loopStep gdFar ⟨500, some fix0, false, true, none⟩ sIdleMax).1.maxSpeed = sIdleMax.maxSpeed ∧
    (loopStep gdFar ⟨500, some fix0, false, true, none⟩ sIdleMax).1.avgSpeed = sIdleMax.avgSpeed ∧
    (loopStep gdFar ⟨500, some fix0, false, true, none⟩ sIdleMax).1.elevationGain = sIdleMax.elevationGain ∧
    Event.sessionStart ∈ (loopStep gdFar ⟨500, some fix0, false, true, none⟩ sIdleMax).2 :=
  c1_amended_thm gdFar sIdleMax fix0 500 false rfl rfl (by decide)

theorem createNewGpx_fail (now : ℕ) (s : TrackerState) :
    createNewGpx false now s = { s with gpxOpen := false } := by
  unfold createNewGpx
  simp

theorem autoTrackPhase_skip (fsOk : Bool) (now : ℕ) (f : Fix) (d : ℚ)
    (s : TrackerState) (hs : autoStartStep fsOk now f d s = (s, []))
    (ht : autoStopStep d s = (s, [])) :
    autoTrackPhase fsOk now f d s = (s, []) := by
  unfold autoTrackPhase
  split
  · simp [hs, ht]
  · rfl

theorem updateWiFiMode_no_pointAppend (ok : Bool) (now : ℕ) (d : ℚ)
    (s : TrackerState) : Event.pointAppend ∉ (updateWiFiMode ok now d s).2 := by
  intro h
  rcases updateWiFiMode_events_wifi ok now d s _ h with h' | h' <;>
    exact Event.noConfusion h'

theorem logPointPhase_append_iff (gd : ℚ → ℚ → ℚ → ℚ → ℚ) (now : ℕ) (f : Fix)
    (s : TrackerState) :
    Event.pointAppend ∈ (logPointPhase gd now f s).2 ↔
      (s.isTracking = true ∧ logInterval < now - s.lastLogTime ∧
        mkRat 5 1000 < gd s.lastLat s.lastLon f.lat f.lon) := by
  unfold logPointPhase
  repeat' split
  all_goals simp_all

/-! ## Claim C5 -/

/-- Counterexample to C5 as stated: with the filesystem refusing to create
the track file (`fsOk = false`), the Idle-to-Recording transition is NOT
aborted — the state machine still advances to Recording (with no open file)
and emits `sessionStart`; the session does not stay Idle. -/
theorem c5_counterexample :
    (loopStep gdFar ⟨600, some fix0, false, false, none⟩ (initState "" "" 0 0)).1.isTracking = true ∧
    (loopStep gdFar ⟨600, some fix0, false, false, none⟩ (initState "" "" 0 0)).1.gpxOpen = false ∧
    Event.sessionStart ∈
      (loopStep gdFar ⟨600, some fix0, false, false, none⟩ (initState "" "" 0 0)).2 := by
  decide

/-- C5 amended: if the filesystem cannot create the track file when the
automatic session start fires, the failure is only logged: the transition is
not aborted.  The state machine advances to Recording (`isTracking` true,
`hasLeftHome` set, point count 1) with no open file handle, no header
written, and the session-start time `trackingStartTime` left unchanged. -/
theorem c5_amended_thm (gd : ℚ → ℚ → ℚ → ℚ → ℚ) (s : TrackerState) (f : Fix)
    (now : ℕ) (ok : Bool)
    (hAuto : s.autoTracking = true) (hLeft : s.hasLeftHome = false)
    (hFar : triggerRadiusKm < gd f.lat f.lon s.homeZoneLat s.homeZoneLon) :
    (loopStep gd ⟨now, some f, ok, false, none⟩ s).1.isTracking = true ∧
    (loopStep gd ⟨now, some f, ok, false, none⟩ s).1.hasLeftHome = true ∧
    (loopStep gd ⟨now, some f, ok, false, none⟩ s).1.gpxOpen = false ∧
    (loopStep gd ⟨now, some f, ok, false, none⟩ s).1.gpxLines = s.gpxLines ∧
    (loopStep gd ⟨now, some f, ok, false, none⟩ s).1.trackingStartTime =
      s.trackingStartTime ∧
    (loopStep gd ⟨now, some f, ok, false, none⟩ s).1.pointCount = 1 ∧
    Event.sessionStart ∈ (loopStep gd ⟨now, some f, ok, false, none⟩ s).2 := by
  have hstep : loopStep gd ⟨now, some f, ok, false, none⟩ s =
      ((cmdPhase ok false now none (gpsPhase gd ok false now f s).1).1,
       (gpsPhase gd ok false now f s).2 ++
         (cmdPhase ok false now none (gpsPhase gd ok false now f s).1).2) := rfl
  set d := gd f.lat f.lon s.homeZoneLat s.homeZoneLon with hd
  set W := (updateWiFiMode ok now d s).1 with hWdef
  have hWauto : W.autoTracking = true := by
    rw [hWdef, updateWiFiMode_autoTracking]; exact hAuto
  have hWleft : W.hasLeftHome = false := by
    rw [hWdef, updateWiFiMode_hasLeftHome]; exact hLeft
  have hWtst : W.trackingStartTime = s.trackingStartTime := by
    rw [hWdef, updateWiFiMode_trackingStartTime]
  have hWlines : W.gpxLines = s.gpxLines := by
    rw [hWdef, updateWiFiMode_gpxLines]
  have hstart : autoStartStep false now f d W =
      ({ W with hasLeftHome := true, isTracking := true, gpxOpen := false,
                lastLat := f.lat, lastLon := f.lon, lastAlt := f.alt,
                lastLogTime := now, pointCount := 1 },
       [Event.sessionStart]) := by
    rw [autoStartStep_fire false now f d W hFar hWleft, createNewGpx_fail]
  have hstop : autoStopStep d (autoStartStep false now f d W).1 =
      ((autoStartStep false now f d W).1, []) := by
    refine autoStopStep_skip d _ ?_
    rintro ⟨h1, -⟩
    exact absurd h1 (lt_asymm hFar)
  have hlog : logPointPhase gd now f (autoStartStep false now f d W).1 =
      ((autoStartStep false now f d W).1, []) := by
    refine logPointPhase_skip gd now f _ ?_
    rw [hstart]
    rintro ⟨-, h2⟩
    simp [logInterval] at h2
  have hauto : autoTrackPhase false now f d W =
      ((autoStartStep false now f d W).1, [Event.sessionStart]) := by
    rw [autoTrackPhase_on false now f d W hWauto, hstop]
    rw [hstart]
    rfl
  have hgps : gpsPhase gd ok false now f s =
      ((logPointPhase gd now f (autoTrackPhase false now f d W).1).1,
       (updateWiFiMode ok now d s).2 ++ (autoTrackPhase false now f d W).2 ++
         (logPointPhase gd now f (autoTrackPhase false now f d W).1).2) := rfl
  rw [hstart] at hlog
  simp only [] at hlog
  rw [hstep, hgps, hauto]
  simp only [cmdPhase_none, hstart, hlog]
  simp [hWtst, hWlines]

/-- Witness for C5 (amended): fresh boot state leaving home at `now = 600`
with the filesystem failing. -/
theorem c5_amended_witness :
    (loopStep gdFar ⟨600, some fix0, false, false, none⟩ (initState "" "" 0 0)).1.isTracking = true ∧
    (loopStep gdFar ⟨600, some fix0, false, false, none⟩ (initState "" "" 0 0)).1.hasLeftHome = true ∧
    (loopStep gdFar ⟨600, some fix0, false, false, none⟩ (initState "" "" 0 0)).1.gpxOpen = false ∧
    (loopStep gdFar ⟨600, some fix0, false, false, none⟩ (initState "" "" 0 0)).1.gpxLines =
      (initState "" "" 0 0).gpxLines ∧
    (loopStep gdFar ⟨600, some fix0, false, false, none⟩ (initState "" "" 0 0)).1.trackingStartTime =
      (initState "" "" 0 0).trackingStartTime ∧
    (loopStep gdFar ⟨600, some fix0, false, false, none⟩ (initState "" "" 0 0)).1.pointCount = 1 ∧
    Event.sessionStart ∈
      (loopStep gdFar ⟨600, some fix0, false, false, none⟩ (initState "" "" 0 0)).2 :=
  c5_amended_thm gdFar (initState "" "" 0 0) fix0 600 false rfl rfl (by decide)

/-! ## Claim C2 -/

/-- A Recording state in manual mode (`autoTracking` off) with stale
last-point data, used to probe the append thresholds at their boundary. -/
def sRec2 : TrackerState :=
  { initState "" "" 0 0 with
    isTracking := true, hasLeftHome := true, autoTracking := false,
    gpxOpen := true, gpxLines := gpxHeader,
    trackingStartTime := 0, lastLogTime := 0 }

/-- Counterexample to C2 as stated: at elapsed time exactly 1000 ms (which
satisfies the claimed threshold of at least 1000 ms) and displacement 6 m
(at least 5 m), the code appends nothing, because both source tests are
strict (`>`); so "appended iff elapsed ≥ 1000 ms and displacement ≥ 5 m" is
false. -/
theorem c2_counterexample :
    logInterval ≤ 1000 - sRec2.lastLogTime ∧
    mkRat 5 1000 ≤ gdSix sRec2.lastLat sRec2.lastLon fix0.lat fix0.lon ∧
    sRec2.isTracking = true ∧
    Event.pointAppend ∉ (loopStep gdSix ⟨1000, some fix0, false, true, none⟩ sRec2).2 := by
  decide

/-- C2 amended: while Recording (with `hasLeftHome` set and the fix outside
the geofence, so that no automatic transition interferes), a point is
appended on the cycle iff the elapsed time since the last logged point is
STRICTLY greater than 1000 ms and the incremental displacement from the last
logged point is STRICTLY greater than 0.005 km; in particular fixes arriving
100 ms apart that stay within 1 m of the last logged point are never
appended. -/
theorem c2_amended_thm (gd : ℚ → ℚ → ℚ → ℚ → ℚ) (s : TrackerState) (f : Fix)
    (now : ℕ) (ok fs : Bool)
    (hTrack : s.isTracking = true) (hLeft : s.hasLeftHome = true)
    (hFar : triggerRadiusKm < gd f.lat f.lon s.homeZoneLat s.homeZoneLon) :
    Event.pointAppend ∈ (loopStep gd ⟨now, some f, ok, fs, none⟩ s).2 ↔
      (logInterval < now - s.lastLogTime ∧
        mkRat 5 1000 < gd s.lastLat s.lastLon f.lat f.lon) := by
  have hstep : loopStep gd ⟨now, some f, ok, fs, none⟩ s =
      ((cmdPhase ok fs now none (gpsPhase gd ok fs now f s).1).1,
       (gpsPhase gd ok fs now f s).2 ++
         (cmdPhase ok fs now none (gpsPhase gd ok fs now f s).1).2) := rfl
  set d := gd f.lat f.lon s.homeZoneLat s.homeZoneLon with hd
  set W := (updateWiFiMode ok now d s).1 with hWdef
  have hWtrack : W.isTracking = true := by
    rw [hWdef, updateWiFiMode_isTracking]; exact hTrack
  have hWleft : W.hasLeftHome = true := by
    rw [hWdef, updateWiFiMode_hasLeftHome]; exact hLeft
  have hWllt : W.lastLogTime = s.lastLogTime := by
    rw [hWdef, updateWiFiMode_lastLogTime]
  have hWlla : W.lastLat = s.lastLat := by
    rw [hWdef, updateWiFiMode_lastLat]
  have hWllo : W.lastLon = s.lastLon := by
    rw [hWdef, updateWiFiMode_lastLon]
  have hstart : autoStartStep fs now f d W = (W, []) := by
    refine autoStartStep_skip fs now f d W ?_
    rintro ⟨-, h2⟩
    rw [hWleft] at h2
    exact Bool.noConfusion h2
  have hstop : autoStopStep d W = (W, []) := by
    refine autoStopStep_skip d W ?_
    rintro ⟨h1, -⟩
    exact absurd h1 (lt_asymm hFar)
  have hauto : autoTrackPhase fs now f d W = (W, []) :=
    autoTrackPhase_skip fs now f d W hstart hstop
  have hgps : gpsPhase gd ok fs now f s =
      ((logPointPhase gd now f (autoTrackPhase fs now f d W).1).1,
       (updateWiFiMode ok now d s).2 ++ (autoTrackPhase fs now f d W).2 ++
         (logPointPhase gd now f (autoTrackPhase fs now f d W).1).2) := rfl
  rw [hstep, hgps, hauto]
  simp only [cmdPhase_none]
  rw [List.append_nil, List.append_nil]
  simp only [List.mem_append]
  rw [logPointPhase_append_iff]
  simp [updateWiFiMode_no_pointAppend ok now d s, hWtrack, hWllt, hWlla, hWllo]

/-- Witness for C2 (amended): the Recording state `sRec` away from home at
`now = 2500`, where both strict thresholds hold. -/
theorem c2_amended_witness :
    Event.pointAppend ∈ (loopStep gdFar ⟨2500, some fix0, false, true, none⟩ sRec).2 ↔
      (logInterval < 2500 - sRec.lastLogTime ∧
        mkRat 5 1000 < gdFar sRec.lastLat sRec.lastLon fix0.lat fix0.lon) :=
  c2_amended_thm gdFar sRec fix0 2500 false true rfl rfl (by decide)

/-! ## Invariant machinery for the trace claims -/

theorem autoStartStep_gpx_inv (now : ℕ) (f : Fix) (d : ℚ) (s : TrackerState)
    (h : s.gpxOpen = s.isTracking) :
    (autoStartStep true now f d s).1.gpxOpen =
      (autoStartStep true now f d s).1.isTracking := by
  unfold autoStartStep createNewGpx
  repeat' split
  all_goals simp_all

theorem autoStopStep_gpx_inv (d : ℚ) (s : TrackerState)
    (h : s.gpxOpen = s.isTracking) :
    (autoStopStep d s).1.gpxOpen = (autoStopStep d s).1.isTracking := by
  unfold autoStopStep closeGpx
  repeat' split
  all_goals simp_all

theorem logPointPhase_gpxOpen (gd : ℚ → ℚ → ℚ → ℚ → ℚ) (now : ℕ) (f : Fix)
    (s : TrackerState) :
    (logPointPhase gd now f s).1.gpxOpen = s.gpxOpen := by
  unfold logPointPhase writeGpxPoint
  repeat' split
  all_goals rfl

theorem logPointPhase_isTracking (gd : ℚ → ℚ → ℚ → ℚ → ℚ) (now : ℕ) (f : Fix)
    (s : TrackerState) :
    (logPointPhase gd now f s).1.isTracking = s.isTracking := by
  unfold logPointPhase writeGpxPoint
  repeat' split
  all_goals rfl

theorem autoTrackPhase_gpx_inv (now : ℕ) (f : Fix) (d : ℚ) (s : TrackerState)
    (h : s.gpxOpen = s.isTracking) :
    (autoTrackPhase true now f d s).1.gpxOpen =
      (autoTrackPhase true now f d s).1.isTracking := by
  unfold autoTrackPhase
  split
  · exact autoStopStep_gpx_inv d _ (autoStartStep_gpx_inv now f d s h)
  · exact h

theorem cmdPhase_gpx_inv (ok : Bool) (now : ℕ) (cmd : Option Cmd)
    (s : TrackerState) (h : s.gpxOpen = s.isTracking) :
    (cmdPhase ok true now cmd s).1.gpxOpen =
      (cmdPhase ok true now cmd s).1.isTracking := by
  unfold cmdPhase handleCommand toggleTrackingCmd saveWifiCmd createNewGpx
    closeGpx startClientWiFi startAccessPoint
  repeat' split
  all_goals simp_all

theorem loopStep_gpx_inv (gd : ℚ → ℚ → ℚ → ℚ → ℚ) (inp : CycleInput)
    (s : TrackerState) (h : s.gpxOpen = s.isTracking) (hfs : inp.fsOk = true) :
    (loopStep gd inp s).1.gpxOpen = (loopStep gd inp s).1.isTracking := by
  rcases hfix : inp.fix with - | f
  · have hstep : loopStep gd inp s =
        cmdPhase inp.connectOk inp.fsOk inp.now inp.cmd s := by
      unfold loopStep
      rw [hfix]
    rw [hstep, hfs]
    exact cmdPhase_gpx_inv inp.connectOk inp.now inp.cmd s h
  · have hstep : loopStep gd inp s =
        ((cmdPhase inp.connectOk inp.fsOk inp.now inp.cmd
            (gpsPhase gd inp.connectOk inp.fsOk inp.now f s).1).1,
         (gpsPhase gd inp.connectOk inp.fsOk inp.now f s).2 ++
           (cmdPhase inp.connectOk inp.fsOk inp.now inp.cmd
             (gpsPhase gd inp.connectOk inp.fsOk inp.now f s).1).2) := by
      unfold loopStep
      rw [hfix]
    have hgpsInv : (gpsPhase gd inp.connectOk inp.fsOk inp.now f s).1.gpxOpen =
        (gpsPhase gd inp.connectOk inp.fsOk inp.now f s).1.isTracking := by
      have h1 : (updateWiFiMode inp.connectOk inp.now
          (gd f.lat f.lon s.homeZoneLat s.homeZoneLon) s).1.gpxOpen =
          (updateWiFiMode inp.connectOk inp.now
            (gd f.lat f.lon s.homeZoneLat s.homeZoneLon) s).1.isTracking := by
        rw [updateWiFiMode_gpxOpen, updateWiFiMode_isTracking]
        exact h
      have h2 := autoTrackPhase_gpx_inv (s := (updateWiFiMode inp.connectOk inp.now
        (gd f.lat f.lon s.homeZoneLat s.homeZoneLon) s).1) inp.now f
        (gd f.lat f.lon s.homeZoneLat s.homeZoneLon) h1
      show (logPointPhase gd inp.now f _).1.gpxOpen =
        (logPointPhase gd inp.now f _).1.isTracking
      rw [logPointPhase_gpxOpen, logPointPhase_isTracking, hfs]
      exact h2
    rw [hstep, hfs]
    rw [hfs] at hgpsInv
    exact cmdPhase_gpx_inv inp.connectOk inp.now inp.cmd _ hgpsInv

/-! ## Claim C6 -/

/-- Counterexample to C6 as stated: a reachable execution in which the
filesystem refuses to create the track file leaves the machine Recording
(`isTracking = true`) with no open handle, breaking the claimed equivalence. -/
theorem c6_counterexample :
    ¬((loopStep gdFar ⟨700, some fix0, false, false, none⟩ (initState "id" "pw" 0 0)).1.gpxOpen =
      (loopStep gdFar ⟨700, some fix0, false, false, none⟩ (initState "id" "pw" 0 0)).1.isTracking) := by
  decide

/-- C6 amended: provided every file creation of the run succeeds
(`allFsOk`), the equivalence "open handle iff Recording" is an invariant:
it holds after any run from a state satisfying it, through automatic
start/stop, manual toggles and point appends. -/
theorem c6_amended_thm (gd : ℚ → ℚ → ℚ → ℚ → ℚ) (inputs : List CycleInput) :
    ∀ s : TrackerState, s.gpxOpen = s.isTracking → allFsOk inputs →
      (run gd s inputs).gpxOpen = (run gd s inputs).isTracking := by
  induction inputs with
  | nil => intro s h _; exact h
  | cons inp rest ih =>
    intro s h hfs
    have hstep : run gd s (inp :: rest) = run gd (loopStep gd inp s).1 rest := rfl
    rw [hstep]
    refine ih (loopStep gd inp s).1 ?_ ?_
    · exact loopStep_gpx_inv gd inp s h (hfs inp (List.mem_cons_self inp rest))
    · intro i hi
      exact hfs i (List.mem_cons_of_mem inp hi)

/-- Witness for C6 (amended): a two-cycle run (leave home, then append) with
all file creations succeeding, from the boot state. -/
theorem c6_amended_witness :
    (run gdFar (initState "" "" 0 0)
        [⟨800, some fix0, false, true, none⟩, ⟨2000, some fix0, false, true, none⟩]).gpxOpen =
      (run gdFar (initState "" "" 0 0)
        [⟨800, some fix0, false, true, none⟩, ⟨2000, some fix0, false, true, none⟩]).isTracking :=
  c6_amended_thm gdFar _ (initState "" "" 0 0) rfl
    (by intro i hi; fin_cases hi <;> rfl)

theorem loopStep_some (gd : ℚ → ℚ → ℚ → ℚ → ℚ) (inp : CycleInput)
    (s : TrackerState) (f : Fix) (hfix : inp.fix = some f) :
    loopStep gd inp s =
      ((cmdPhase inp.connectOk inp.fsOk inp.now inp.cmd
          (gpsPhase gd inp.connectOk inp.fsOk inp.now f s).1).1,
       (gpsPhase gd inp.connectOk inp.fsOk inp.now f s).2 ++
         (cmdPhase inp.connectOk inp.fsOk inp.now inp.cmd
           (gpsPhase gd inp.connectOk inp.fsOk inp.now f s).1).2) := by
  unfold loopStep
  rw [hfix]

theorem countSessionStarts_cons (gd : ℚ → ℚ → ℚ → ℚ → ℚ) (inp : CycleInput)
    (rest : List CycleInput) (s : TrackerState) :
    countSessionStarts gd s (inp :: rest) =
      (loopStep gd inp s).2.count Event.sessionStart +
        countSessionStarts gd (loopStep gd inp s).1 rest := rfl

theorem updateWiFiMode_no_sessionStart (ok : Bool) (now : ℕ) (d : ℚ)
    (s : TrackerState) : Event.sessionStart ∉ (updateWiFiMode ok now d s).2 := by
  intro h
  rcases updateWiFiMode_events_wifi ok now d s _ h with h' | h' <;>
    exact Event.noConfusion h'

theorem logPointPhase_no_sessionStart (gd : ℚ → ℚ → ℚ → ℚ → ℚ) (now : ℕ)
    (f : Fix) (s : TrackerState) :
    Event.sessionStart ∉ (logPointPhase gd now f s).2 := by
  intro h
  exact Event.noConfusion (logPointPhase_events gd now f s _ h)

theorem createNewGpx_hasLeftHome (fsOk : Bool) (now : ℕ) (s : TrackerState) :
    (createNewGpx fsOk now s).hasLeftHome = s.hasLeftHome := by
  unfold createNewGpx
  repeat' split
  all_goals rfl

theorem createNewGpx_homeZoneLat (fsOk : Bool) (now : ℕ) (s : TrackerState) :
    (createNewGpx fsOk now s).homeZoneLat = s.homeZoneLat := by
  unfold createNewGpx
  repeat' split
  all_goals rfl

theorem createNewGpx_homeZoneLon (fsOk : Bool) (now : ℕ) (s : TrackerState) :
    (createNewGpx fsOk now s).homeZoneLon = s.homeZoneLon := by
  unfold createNewGpx
  repeat' split
  all_goals rfl

theorem logPointPhase_hasLeftHome (gd : ℚ → ℚ → ℚ → ℚ → ℚ) (now : ℕ) (f : Fix)
    (s : TrackerState) :
    (logPointPhase gd now f s).1.hasLeftHome = s.hasLeftHome := by
  unfold logPointPhase writeGpxPoint
  repeat' split
  all_goals rfl

theorem logPointPhase_homeZoneLat (gd : ℚ → ℚ → ℚ → ℚ → ℚ) (now : ℕ) (f : Fix)
    (s : TrackerState) :
    (logPointPhase gd now f s).1.homeZoneLat = s.homeZoneLat := by
  unfold logPointPhase writeGpxPoint
  repeat' split
  all_goals rfl

theorem logPointPhase_homeZoneLon (gd : ℚ → ℚ → ℚ → ℚ → ℚ) (now : ℕ) (f : Fix)
    (s : TrackerState) :
    (logPointPhase gd now f s).1.homeZoneLon = s.homeZoneLon := by
  unfold logPointPhase writeGpxPoint
  repeat' split
  all_goals rfl

/-- On the geofence-exit edge cycle, exactly one `sessionStart` is emitted,
`hasLeftHome` comes out true and the home location is untouched. -/
theorem loopStep_fire (gd : ℚ → ℚ → ℚ → ℚ → ℚ) (inp : CycleInput)
    (s : TrackerState) (f : Fix) (hfix : inp.fix = some f)
    (hcmd : inp.cmd = none)
    (hAuto : s.autoTracking = true) (hLeft : s.hasLeftHome = false)
    (hFar : triggerRadiusKm < gd f.lat f.lon s.homeZoneLat s.homeZoneLon) :
    (loopStep gd inp s).2.count Event.sessionStart = 1 ∧
    (loopStep gd inp s).1.hasLeftHome = true ∧
    (loopStep gd inp s).1.homeZoneLat = s.homeZoneLat ∧
    (loopStep gd inp s).1.homeZoneLon = s.homeZoneLon := by
  have hstep := loopStep_some gd inp s f hfix
  set now := inp.now with hnow
  set ok := inp.connectOk with hok
  set fs := inp.fsOk with hfs
  set d := gd f.lat f.lon s.homeZoneLat s.homeZoneLon with hd
  set W := (updateWiFiMode ok now d s).1 with hWdef
  have hWauto : W.autoTracking = true := by
    rw [hWdef, updateWiFiMode_autoTracking]; exact hAuto
  have hWleft : W.hasLeftHome = false := by
    rw [hWdef, updateWiFiMode_hasLeftHome]; exact hLeft
  have hWhla : W.homeZoneLat = s.homeZoneLat := by
    rw [hWdef, updateWiFiMode_homeZoneLat]
  have hWhlo : W.homeZoneLon = s.homeZoneLon := by
    rw [hWdef, updateWiFiMode_homeZoneLon]
  have hstart := autoStartStep_fire fs now f d W hFar hWleft
  have hstop : autoStopStep d (autoStartStep fs now f d W).1 =
      ((autoStartStep fs now f d W).1, []) := by
    refine autoStopStep_skip d _ ?_
    rintro ⟨h1, -⟩
    exact absurd h1 (lt_asymm hFar)
  have hauto : autoTrackPhase fs now f d W =
      ((autoStartStep fs now f d W).1, [Event.sessionStart]) := by
    rw [autoTrackPhase_on fs now f d W hWauto, hstop]
    rw [hstart]
    rfl
  have hlog : logPointPhase gd now f (autoStartStep fs now f d W).1 =
      ((autoStartStep fs now f d W).1, []) := by
    refine logPointPhase_skip gd now f _ ?_
    rw [hstart]
    rintro ⟨-, h2⟩
    simp [logInterval] at h2
  have hgps : gpsPhase gd ok fs now f s =
      ((logPointPhase gd now f (autoTrackPhase fs now f d W).1).1,
       (updateWiFiMode ok now d s).2 ++ (autoTrackPhase fs now f d W).2 ++
         (logPointPhase gd now f (autoTrackPhase fs now f d W).1).2) := rfl
  rw [hstart] at hlog
  simp only [] at hlog
  rw [hstep, hcmd, hgps, hauto]
  simp only [cmdPhase_none, hstart, hlog]
  refine ⟨?_, ?_⟩
  · simp [List.count_append,
      List.count_eq_zero.mpr (updateWiFiMode_no_sessionStart ok now d s)]
  · simp [createNewGpx_hasLeftHome, createNewGpx_homeZoneLat,
      createNewGpx_homeZoneLon, hWhla, hWhlo]

/-- While `hasLeftHome` is already set and the fix stays outside the
geofence, a command-free cycle emits no `sessionStart`, keeps `hasLeftHome`
set and does not move the home location. -/
theorem loopStep_blocked (gd : ℚ → ℚ → ℚ → ℚ → ℚ) (inp : CycleInput)
    (s : TrackerState) (f : Fix) (hfix : inp.fix = some f)
    (hcmd : inp.cmd = none) (hLeft : s.hasLeftHome = true)
    (hFar : triggerRadiusKm < gd f.lat f.lon s.homeZoneLat s.homeZoneLon) :
    (loopStep gd inp s).2.count Event.sessionStart = 0 ∧
    (loopStep gd inp s).1.hasLeftHome = true ∧
    (loopStep gd inp s).1.homeZoneLat = s.homeZoneLat ∧
    (loopStep gd inp s).1.homeZoneLon = s.homeZoneLon := by
  have hstep := loopStep_some gd inp s f hfix
  set now := inp.now with hnow
  set ok := inp.connectOk with hok
  set fs := inp.fsOk with hfs
  set d := gd f.lat f.lon s.homeZoneLat s.homeZoneLon with hd
  set W := (updateWiFiMode ok now d s).1 with hWdef
  have hWleft : W.hasLeftHome = true := by
    rw [hWdef, updateWiFiMode_hasLeftHome]; exact hLeft
  have hWhla : W.homeZoneLat = s.homeZoneLat := by
    rw [hWdef, updateWiFiMode_homeZoneLat]
  have hWhlo : W.homeZoneLon = s.homeZoneLon := by
    rw [hWdef, updateWiFiMode_homeZoneLon]
  have hstart : autoStartStep fs now f d W = (W, []) := by
    refine autoStartStep_skip fs now f d W ?_
    rintro ⟨-, h2⟩
    rw [hWleft] at h2
    exact Bool.noConfusion h2
  have hstop : autoStopStep d W = (W, []) := by
    refine autoStopStep_skip d W ?_
    rintro ⟨h1, -⟩
    exact absurd h1 (lt_asymm hFar)
  have hauto : autoTrackPhase fs now f d W = (W, []) :=
    autoTrackPhase_skip fs now f d W hstart hstop
  have hgps : gpsPhase gd ok fs now f s =
      ((logPointPhase gd now f (autoTrackPhase fs now f d W).1).1,
       (updateWiFiMode ok now d s).2 ++ (autoTrackPhase fs now f d W).2 ++
         (logPointPhase gd now f (autoTrackPhase fs now f d W).1).2) := rfl
  rw [hstep, hcmd, hgps, hauto]
  simp only [cmdPhase_none]
  refine ⟨?_, ?_⟩
  · simp [List.count_append,
      List.count_eq_zero.mpr (updateWiFiMode_no_sessionStart ok now d s),
      List.count_eq_zero.mpr (logPointPhase_no_sessionStart gd now f W)]
  · simp [logPointPhase_hasLeftHome, logPointPhase_homeZoneLat,
      logPointPhase_homeZoneLon, hWleft, hWhla, hWhlo]

/-- Once `hasLeftHome` is set, a run of command-free outside-the-geofence
cycles fires no further session start. -/
theorem c8_aux (gd : ℚ → ℚ → ℚ → ℚ → ℚ) (inputs : List CycleInput) :
    ∀ s : TrackerState, s.hasLeftHome = true →
      (∀ inp ∈ inputs, inp.cmd = none ∧ ∃ f, inp.fix = some f ∧
        triggerRadiusKm < gd f.lat f.lon s.homeZoneLat s.homeZoneLon) →
      countSessionStarts gd s inputs = 0 := by
  induction inputs with
  | nil => intro s _ _; rfl
  | cons inp rest ih =>
    intro s hLeft hout
    obtain ⟨hcmd, f, hfix, hFar⟩ := hout inp (List.mem_cons_self inp rest)
    obtain ⟨hc, hl, hla, hlo⟩ := loopStep_blocked gd inp s f hfix hcmd hLeft hFar
    rw [countSessionStarts_cons, hc]
    rw [ih (loopStep gd inp s).1 hl ?_]
    intro i hi
    obtain ⟨hc', f', hfix', hFar'⟩ := hout i (List.mem_cons_of_mem inp hi)
    rw [hla, hlo]
    exact ⟨hc', f', hfix', hFar'⟩

/-! ## Claim C8 -/

/-- C8: for every non-empty sequence of command-free cycles whose fixes stay
strictly outside the geofence, started with `autoTracking` on and
`hasLeftHome` clear, the automatic Idle-to-Recording transition fires exactly
once for the whole excursion: the run emits exactly one `sessionStart`. -/
theorem c8_thm (gd : ℚ → ℚ → ℚ → ℚ → ℚ) (inputs : List CycleInput)
    (s : TrackerState) (hne : inputs ≠ [])
    (hAuto : s.autoTracking = true) (hLeft : s.hasLeftHome = false)
    (hout : ∀ inp ∈ inputs, inp.cmd = none ∧ ∃ f, inp.fix = some f ∧
      triggerRadiusKm < gd f.lat f.lon s.homeZoneLat s.homeZoneLon) :
    countSessionStarts gd s inputs = 1 := by
  rcases inputs with - | ⟨inp, rest⟩
  · exact absurd rfl hne
  · obtain ⟨hcmd, f, hfix, hFar⟩ := hout inp (List.mem_cons_self inp rest)
    obtain ⟨hc, hl, hla, hlo⟩ := loopStep_fire gd inp s f hfix hcmd hAuto hLeft hFar
    rw [countSessionStarts_cons, hc]
    rw [c8_aux gd rest (loopStep gd inp s).1 hl ?_]
    intro i hi
    obtain ⟨hc', f', hfix', hFar'⟩ := hout i (List.mem_cons_of_mem inp hi)
    rw [hla, hlo]
    exact ⟨hc', f', hfix', hFar'⟩

/-- Witness for C8: two cycles outside the geofence from the boot state fire
exactly one session start. -/
theorem c8_witness :
    countSessionStarts gdFar (initState "" "" 0 0)
      [⟨900, some fix0, false, true, none⟩, ⟨1900, some fix0, false, true, none⟩] = 1 :=
  c8_thm gdFar
    [⟨900, some fix0, false, true, none⟩, ⟨1900, some fix0, false, true, none⟩]
    (initState "" "" 0 0) (by simp) rfl rfl
    (by
      intro i hi
      fin_cases hi <;> exact ⟨rfl, fix0, rfl, by decide⟩)

theorem cmdPhase_events_no_wifi (ok fs : Bool) (now : ℕ) (cmd : Option Cmd)
    (s : TrackerState)
    (hc : ∀ ssid pass, cmd ≠ some (Cmd.saveWifi ssid pass)) :
    ∀ e ∈ (cmdPhase ok fs now cmd s).2,
      e = Event.sessionStart ∨ e = Event.sessionStop := by
  rcases cmd with - | c
  · rw [cmdPhase_none]
    simp
  · rcases c with _ | _ | ⟨ssid, pass⟩
    · unfold cmdPhase handleCommand
      split
      · exact toggleTrackingCmd_events fs now s
      · simp
    · unfold cmdPhase handleCommand
      split <;> simp
    · exact absurd rfl (hc ssid pass)

/-- In a cycle whose command is not a credential update, any connect attempt
or AP start can only have been performed by `updateWiFiMode`, whose dwell
guard had therefore passed against the pre-cycle `lastModeSwitchTime`. -/
theorem loopStep_dwell (gd : ℚ → ℚ → ℚ → ℚ → ℚ) (inp : CycleInput)
    (s : TrackerState)
    (hc : ∀ ssid pass, inp.cmd ≠ some (Cmd.saveWifi ssid pass))
    (hev : Event.connectAttempt ∈ (loopStep gd inp s).2 ∨
      Event.apStart ∈ (loopStep gd inp s).2) :
    modeSwitchInterval ≤ inp.now - s.lastModeSwitchTime := by
  have hWifiEv : ∀ e, e = Event.connectAttempt ∨ e = Event.apStart →
      e ∈ (loopStep gd inp s).2 →
      ∃ d, e ∈ (updateWiFiMode inp.connectOk inp.now d s).2 := by
    intro e he hmem
    rcases hfix : inp.fix with - | f
    · exfalso
      have hstep : loopStep gd inp s =
          cmdPhase inp.connectOk inp.fsOk inp.now inp.cmd s := by
        unfold loopStep
        rw [hfix]
      rw [hstep] at hmem
      rcases cmdPhase_events_no_wifi inp.connectOk inp.fsOk inp.now inp.cmd s hc
          e hmem with h' | h' <;> rcases he with rfl | rfl <;>
        exact Event.noConfusion h'
    · have hstep := loopStep_some gd inp s f hfix
      rw [hstep] at hmem
      refine ⟨gd f.lat f.lon s.homeZoneLat s.homeZoneLon, ?_⟩
      have hgps : (gpsPhase gd inp.connectOk inp.fsOk inp.now f s).2 =
          (updateWiFiMode inp.connectOk inp.now
              (gd f.lat f.lon s.homeZoneLat s.homeZoneLon) s).2 ++
            (autoTrackPhase inp.fsOk inp.now f
              (gd f.lat f.lon s.homeZoneLat s.homeZoneLon)
              (updateWiFiMode inp.connectOk inp.now
                (gd f.lat f.lon s.homeZoneLat s.homeZoneLon) s).1).2 ++
            (logPointPhase gd inp.now f
              (autoTrackPhase inp.fsOk inp.now f
                (gd f.lat f.lon s.homeZoneLat s.homeZoneLon)
                (updateWiFiMode inp.connectOk inp.now
                  (gd f.lat f.lon s.homeZoneLat s.homeZoneLon) s).1).1).2 := rfl
      simp only [List.mem_append, hgps] at hmem
      rcases hmem with ((h | h) | h) | h
      · exact h
      · exfalso
        rcases autoTrackPhase_events inp.fsOk inp.now f _ _ e h with h' | h' <;>
          rcases he with rfl | rfl <;> exact Event.noConfusion h'
      · exfalso
        have h' := logPointPhase_events gd inp.now f _ e h
        rcases he with rfl | rfl <;> exact Event.noConfusion h'
      · exfalso
        rcases cmdPhase_events_no_wifi inp.connectOk inp.fsOk inp.now inp.cmd _ hc
            e h with h' | h' <;> rcases he with rfl | rfl <;>
          exact Event.noConfusion h'
  rcases hev with h | h
  · obtain ⟨d, hd⟩ := hWifiEv Event.connectAttempt (Or.inl rfl) h
    exact updateWiFiMode_events_dwell inp.connectOk inp.now d s
      (List.ne_nil_of_mem hd)
  · obtain ⟨d, hd⟩ := hWifiEv Event.apStart (Or.inr rfl) h
    exact updateWiFiMode_events_dwell inp.connectOk inp.now d s
      (List.ne_nil_of_mem hd)

theorem dwellRespectedB_cons (gd : ℚ → ℚ → ℚ → ℚ → ℚ) (inp : CycleInput)
    (rest : List CycleInput) (s : TrackerState) :
    dwellRespectedB gd s (inp :: rest) =
      ((!(decide (Event.connectAttempt ∈ (loopStep gd inp s).2) ||
          decide (Event.apStart ∈ (loopStep gd inp s).2)) ||
         decide (modeSwitchInterval ≤ inp.now - s.lastModeSwitchTime)) &&
        dwellRespectedB gd (loopStep gd inp s).1 rest) := rfl

/-! ## Claim C3 -/

/-- Counterexample to C3 as stated: after the device connects as a station at
`t = 20000` ms (a role-affecting action stamping `lastModeSwitchTime`), a
credential-update command at `t = 21000` ms — only 1000 ms later, far below
the 15000 ms dwell interval — immediately performs another client connect
attempt: the dwell invariant is violated on a reachable execution. -/
theorem c3_counterexample :
    dwellRespectedB gdHome (initState "home" "pw" 0 0)
      [⟨20000, some fix0, true, true, none⟩,
       ⟨21000, none, true, true, some (Cmd.saveWifi "n" "p")⟩] = false := by
  decide

/-- C3 amended: along any run containing no credential-update command, role
switches and connect attempts are performed only on cycles where at least the
15 s dwell interval has elapsed since the pre-cycle `lastModeSwitchTime`
(`dwellRespectedB`); the `/saveWifi` credential update is exempt from the
dwell guard and can trigger an attempt at any time. -/
theorem c3_amended_thm (gd : ℚ → ℚ → ℚ → ℚ → ℚ) (inputs : List CycleInput) :
    ∀ s : TrackerState, noCredUpdate inputs →
      dwellRespectedB gd s inputs = true := by
  induction inputs with
  | nil => intro s _; rfl
  | cons inp rest ih =>
    intro s hnc
    rw [dwellRespectedB_cons, Bool.and_eq_true]
    refine ⟨?_, ?_⟩
    · by_cases hev : Event.connectAttempt ∈ (loopStep gd inp s).2 ∨
          Event.apStart ∈ (loopStep gd inp s).2
      · have hd := loopStep_dwell gd inp s
          (hnc inp (List.mem_cons_self inp rest)) hev
        simp [hd]
      · push_neg at hev
        simp [hev.1, hev.2]
    · refine ih (loopStep gd inp s).1 ?_
      intro i hi
      exact hnc i (List.mem_cons_of_mem inp hi)

/-- Witness for C3 (amended): a single at-home connecting cycle with no
credential update respects the dwell discipline. -/
theorem c3_amended_witness :
    dwellRespectedB gdHome (initState "home" "pw" 0 0)
      [⟨20000, some fix0, true, true, none⟩] = true :=
  c3_amended_thm gdHome [⟨20000, some fix0, true, true, none⟩]
    (initState "home" "pw" 0 0)
    (by
      intro i hi ssid pass hcmd
      fin_cases hi
      exact Option.noConfusion hcmd)

theorem autoStopStep_trackingStartTime (d : ℚ) (s : TrackerState) :
    (autoStopStep d s).1.trackingStartTime = s.trackingStartTime := by
  unfold autoStopStep closeGpx
  repeat' split
  all_goals rfl

theorem logPointPhase_trackingStartTime (gd : ℚ → ℚ → ℚ → ℚ → ℚ) (now : ℕ)
    (f : Fix) (s : TrackerState) :
    (logPointPhase gd now f s).1.trackingStartTime = s.trackingStartTime := by
  unfold logPointPhase writeGpxPoint
  repeat' split
  all_goals rfl

theorem autoTrackPhase_tst (fsOk : Bool) (now : ℕ) (f : Fix) (d : ℚ)
    (s : TrackerState) :
    (autoTrackPhase fsOk now f d s).1.trackingStartTime = s.trackingStartTime ∨
      (autoTrackPhase fsOk now f d s).1.trackingStartTime = now := by
  unfold autoTrackPhase autoStartStep autoStopStep createNewGpx closeGpx
  repeat' split
  all_goals simp

theorem cmdPhase_tst (ok fs : Bool) (now : ℕ) (cmd : Option Cmd)
    (s : TrackerState) :
    (cmdPhase ok fs now cmd s).1.trackingStartTime = s.trackingStartTime ∨
      (cmdPhase ok fs now cmd s).1.trackingStartTime = now := by
  unfold cmdPhase handleCommand toggleTrackingCmd saveWifiCmd createNewGpx
    closeGpx startClientWiFi startAccessPoint
  repeat' split
  all_goals simp

theorem gpsPhase_tst (gd : ℚ → ℚ → ℚ → ℚ → ℚ) (ok fs : Bool) (now : ℕ)
    (f : Fix) (s : TrackerState) :
    (gpsPhase gd ok fs now f s).1.trackingStartTime = s.trackingStartTime ∨
      (gpsPhase gd ok fs now f s).1.trackingStartTime = now := by
  show (logPointPhase gd now f _).1.trackingStartTime = _ ∨
    (logPointPhase gd now f _).1.trackingStartTime = _
  rw [logPointPhase_trackingStartTime]
  rcases autoTrackPhase_tst fs now f (gd f.lat f.lon s.homeZoneLat s.homeZoneLon)
      (updateWiFiMode ok now (gd f.lat f.lon s.homeZoneLat s.homeZoneLon) s).1 with
    h | h
  · rw [h, updateWiFiMode_trackingStartTime]
    exact Or.inl rfl
  · exact Or.inr h

theorem loopStep_tst_le (gd : ℚ → ℚ → ℚ → ℚ → ℚ) (inp : CycleInput)
    (s : TrackerState) (h : s.trackingStartTime ≤ inp.now) :
    (loopStep gd inp s).1.trackingStartTime ≤ inp.now := by
  rcases hfix : inp.fix with - | f
  · have hstep : loopStep gd inp s =
        cmdPhase inp.connectOk inp.fsOk inp.now inp.cmd s := by
      unfold loopStep
      rw [hfix]
    rw [hstep]
    rcases cmdPhase_tst inp.connectOk inp.fsOk inp.now inp.cmd s with h' | h' <;>
      rw [h']
    exact h
  · have hstep := loopStep_some gd inp s f hfix
    rw [hstep]
    show (cmdPhase _ _ _ _ _).1.trackingStartTime ≤ inp.now
    rcases cmdPhase_tst inp.connectOk inp.fsOk inp.now inp.cmd
        (gpsPhase gd inp.connectOk inp.fsOk inp.now f s).1 with h' | h' <;>
      rw [h']
    rcases gpsPhase_tst gd inp.connectOk inp.fsOk inp.now f s with h'' | h'' <;>
      rw [h'']
    exact h

/-- Per-cycle core of C10: if the pre-cycle `trackingStartTime` is strictly
below the cycle time, then whenever the GPS block appends a point, the
elapsed time entering the average-speed division is strictly positive (if the
automatic start fired on this very cycle, `lastLogTime = now` makes the
append guard false, so no point is appended at all). -/
theorem gpsPhase_divisor (gd : ℚ → ℚ → ℚ → ℚ → ℚ) (ok fs : Bool) (now : ℕ)
    (f : Fix) (s : TrackerState) (h : s.trackingStartTime < now)
    (hmem : Event.pointAppend ∈ (gpsPhase gd ok fs now f s).2) :
    0 < now - (gpsPhase gd ok fs now f s).1.trackingStartTime := by
  set d := gd f.lat f.lon s.homeZoneLat s.homeZoneLon with hd
  set W := (updateWiFiMode ok now d s).1 with hWdef
  have hWtst : W.trackingStartTime = s.trackingStartTime := by
    rw [hWdef, updateWiFiMode_trackingStartTime]
  have hgpsE : (gpsPhase gd ok fs now f s).2 =
      (updateWiFiMode ok now d s).2 ++ (autoTrackPhase fs now f d W).2 ++
        (logPointPhase gd now f (autoTrackPhase fs now f d W).1).2 := rfl
  have hgpsS : (gpsPhase gd ok fs now f s).1 =
      (logPointPhase gd now f (autoTrackPhase fs now f d W).1).1 := rfl
  by_cases hat : W.autoTracking = true
  · by_cases hsc : triggerRadiusKm < d ∧ W.hasLeftHome = false
    · -- the automatic start fired this cycle: no append is possible
      exfalso
      have hAlog : (autoStartStep fs now f d W).1.lastLogTime = now := by
        rw [autoStartStep_fire fs now f d W hsc.1 hsc.2]
      have hXs : (autoTrackPhase fs now f d W).1 =
          (autoStopStep d (autoStartStep fs now f d W).1).1 := by
        rw [autoTrackPhase_on fs now f d W hat]
      have hlogpair : logPointPhase gd now f (autoTrackPhase fs now f d W).1 =
          ((autoTrackPhase fs now f d W).1, []) := by
        rw [hXs]
        by_cases hst : d < triggerRadiusKm ∧
            (autoStartStep fs now f d W).1.isTracking = true
        · refine logPointPhase_not_tracking gd now f _ ?_
          rw [autoStopStep_fire d (autoStartStep fs now f d W).1 hst.1 hst.2]
        · rw [autoStopStep_skip d _ hst]
          refine logPointPhase_skip gd now f _ ?_
          rintro ⟨-, h2⟩
          rw [hAlog] at h2
          omega
      rw [hgpsE] at hmem
      rcases List.mem_append.mp hmem with hmem1 | hmem2
      · rcases List.mem_append.mp hmem1 with hw | ha
        · exact updateWiFiMode_no_pointAppend ok now d s hw
        · rcases autoTrackPhase_events fs now f d W _ ha with h' | h' <;>
            exact Event.noConfusion h'
      · rw [hlogpair] at hmem2
        simp at hmem2
    · -- no start this cycle: `trackingStartTime` is the pre-cycle one
      have hstart : autoStartStep fs now f d W = (W, []) :=
        autoStartStep_skip fs now f d W hsc
      have hauto_t : (autoTrackPhase fs now f d W).1.trackingStartTime =
          W.trackingStartTime := by
        rw [autoTrackPhase_on fs now f d W hat, hstart]
        exact autoStopStep_trackingStartTime d W
      rw [hgpsS, logPointPhase_trackingStartTime, hauto_t, hWtst]
      omega
  · have hauto : autoTrackPhase fs now f d W = (W, []) := by
      unfold autoTrackPhase
      rw [if_neg hat]
    rw [hgpsS, hauto, logPointPhase_trackingStartTime, hWtst]
    omega

theorem DivisorsPos_cons (gd : ℚ → ℚ → ℚ → ℚ → ℚ) (inp : CycleInput)
    (rest : List CycleInput) (s : TrackerState) :
    DivisorsPos gd s (inp :: rest) ↔
      divisorPosAt gd inp s ∧ DivisorsPos gd (loopStep gd inp s).1 rest :=
  Iff.rfl

theorem timesIncreasing_cons (t : ℕ) (inp : CycleInput)
    (rest : List CycleInput) :
    timesIncreasing t (inp :: rest) ↔
      t < inp.now ∧ timesIncreasing inp.now rest :=
  Iff.rfl

/-! ## Claim C10 -/

/-- C10: along any run with strictly increasing cycle times started when
`trackingStartTime` is at most the start time (true at boot, where it is 0),
every accepted point is logged at a cycle time strictly greater than the
`trackingStartTime` in force, so the average-speed divisor
`(now - trackingStartTime) / 3600000` is nonzero — including for the first
point after a manual start, which does not refresh `lastLogTime`. -/
theorem c10_thm (gd : ℚ → ℚ → ℚ → ℚ → ℚ) (inputs : List CycleInput) :
    ∀ (s : TrackerState) (t : ℕ), s.trackingStartTime ≤ t →
      timesIncreasing t inputs → DivisorsPos gd s inputs := by
  induction inputs with
  | nil => intro s t _ _; exact trivial
  | cons inp rest ih =>
    intro s t h1 h2
    rw [timesIncreasing_cons] at h2
    obtain ⟨hlt, hrest⟩ := h2
    rw [DivisorsPos_cons]
    constructor
    · intro f hf hmem
      have hst : s.trackingStartTime < inp.now := lt_of_le_of_lt h1 hlt
      have h0 := gpsPhase_divisor gd inp.connectOk inp.fsOk inp.now f s hst hmem
      refine ⟨h0, ?_⟩
      have hq : (0 : ℚ) <
          ((inp.now - (gpsPhase gd inp.connectOk inp.fsOk inp.now f s).1.trackingStartTime : ℕ) : ℚ) := by
        exact_mod_cast h0
      positivity
    · refine ih (loopStep gd inp s).1 inp.now ?_ hrest
      exact loopStep_tst_le gd inp s (le_of_lt (lt_of_le_of_lt h1 hlt))

/-- Witness for C10: a single outside cycle at `now = 800` from the boot
state (where `trackingStartTime = 0`). -/
theorem c10_witness :
    DivisorsPos gdFar (initState "" "" 0 0) [⟨800, some fix0, false, true, none⟩] :=
  c10_thm gdFar [⟨800, some fix0, false, true, none⟩] (initState "" "" 0 0) 0
    (Nat.le_refl 0) (by norm_num [timesIncreasing])

end DogTracker
